import Mathlib

/-!
Verification development for the KYC onboarding backend.

The definitions below are a shallow embedding of the Python sources
`backend/validation_scorer.py` and `backend/main.py`:

* Python `float` arithmetic is modelled by exact rationals (`ℚ`); the
  numeric literals (0.25, 0.8, …) are small decimal fractions that are
  compared and combined at magnitudes where double rounding cannot cross
  any of the program's decision thresholds, so the rational model agrees
  with the float computation on the modelled domain.
* Python `int(x)` on a float is truncation toward zero, modelled by
  `pyTrunc` (truncating division on `ℚ`).
* Python dicts appearing as data (form data, OCR results, extracted
  fields) are modelled by records with `Option` fields or by
  insertion-ordered association lists; an absent key is `none`.
* `datetime.now()` is modelled by an explicit `nowDays` parameter: the
  proleptic-Gregorian day number of the current date (`daysFromCivil`).
* Strings are compared with `difflib.SequenceMatcher(None, a, b).ratio()`,
  which is reimplemented below (`matcherRatioValue`); `str.lower` is
  modelled for its ASCII range.
-/

/-- Python `int(x)` applied to a non-integral number truncates toward
zero; on `ℚ` this is truncating division of numerator by denominator. -/
def pyTrunc (q : ℚ) : Int :=
  Int.tdiv q.num q.den

/-- Python truthiness of an optional string value: `None` and `''` are
falsy, every other string is truthy. -/
def truthy (o : Option String) : Bool :=
  match o with
  | none => false
  | some s => s ≠ ""

/-- Python `x or default` for an optional string: the default is used
when the value is absent or empty. -/
def pyOrStr (o : Option String) (dflt : String) : String :=
  match o with
  | none => dflt
  | some s => if s = "" then dflt else s

/-- ASCII lower-casing of one character, the fragment of Python
`str.lower` exercised by the modelled data. -/
def pyLowerChar (c : Char) : Char :=
  Char.toLower c

/-- Lower-cased character list of a string (`value.lower()`). -/
def lowerData (s : String) : List Char :=
  s.data.map pyLowerChar

/-- ASCII upper-casing of one character (`str.upper`). -/
def pyUpperChar (c : Char) : Char :=
  Char.toUpper c

/-- Upper-cased string (`doc_type.upper()`). -/
def upperStr (s : String) : String :=
  ⟨s.data.map pyUpperChar⟩

/-- Python `needle in hay` on strings: substring containment. -/
def strContains (hay needle : List Char) : Bool :=
  match hay with
  | [] => needle.isEmpty
  | _ :: t => needle.isPrefixOf hay || strContains t needle

/-- Whitespace characters recognised by Python `str.strip()` /
`str.split()` in the ASCII range. -/
def pyIsSpace (c : Char) : Bool :=
  c = ' ' || c = '\t' || c = '\n' || c = '\x0d' || c = '\x0b' || c = '\x0c'

/-- Whether `str(value).strip() == ''`: the string is empty or consists
of whitespace only. -/
def isBlank (s : String) : Bool :=
  s.data.all pyIsSpace

/-- Helper for `splitWs`: accumulates the current word (reversed). -/
def splitWsAux : List Char → List Char → List (List Char)
  | [], cur => if cur.isEmpty then [] else [cur.reverse]
  | c :: t, cur =>
    if pyIsSpace c then
      if cur.isEmpty then splitWsAux t [] else cur.reverse :: splitWsAux t []
    else
      splitWsAux t (c :: cur)

/-- Python `text.split()`: maximal runs of non-whitespace characters. -/
def splitWs (cs : List Char) : List (List Char) :=
  splitWsAux cs []

/-- ASCII decimal digit test (regex `\d` over the modelled data). -/
def isDigitAscii (c : Char) : Bool :=
  '0' ≤ c && c ≤ '9'

/-- ASCII upper-case letter test (regex `[A-Z]`). -/
def isUpperAscii (c : Char) : Bool :=
  'A' ≤ c && c ≤ 'Z'

/-- ASCII letter test (regex `[a-zA-Z]`). -/
def isAlphaAscii (c : Char) : Bool :=
  ('a' ≤ c && c ≤ 'z') || isUpperAscii c

/-- Insertion-ordered dict write: `d[k] = v` replaces the value in place
when the key exists, otherwise appends the new pair. -/
def dictSet {α : Type} (d : List (String × α)) (k : String) (v : α) : List (String × α) :=
  match d with
  | [] => [(k, v)]
  | (k', v') :: t => if k' = k then (k, v) :: t else (k', v') :: dictSet t k v

/-- Rounding of a rational to the nearest integer with ties to even, the
rounding used when a float is rendered with a fixed number of decimals. -/
def roundHalfEven (q : ℚ) : Int :=
  let f := ⌊q⌋
  let frac := q - f
  if frac < 1/2 then f
  else if 1/2 < frac then f + 1
  else if f % 2 = 0 then f else f + 1

/-- Python `f'{x:.2%}'`: the value rendered as a percentage with two
decimal places (modelled on the exact rational value). -/
def fmtPercent2 (q : ℚ) : String :=
  let scaled := roundHalfEven (q * 10000)
  let sign := if scaled < 0 then "-" else ""
  let n := scaled.natAbs
  let whole := n / 100
  let fracPart := n % 100
  sign ++ toString whole ++ "." ++ (if fracPart < 10 then "0" else "") ++ toString fracPart ++ "%"

/-!
Model of `difflib.SequenceMatcher(None, a, b).ratio()` as used by
`ValidationRiskScorer._calculate_similarity`.  With `isjunk = None` the
junk set is empty; the `autojunk` heuristic removes "popular" elements
from the index of `b` when `len(b) >= 200`.
-/

/-- Character-keyed association-list write for the `b2j` index. -/
def dictSetChar (d : List (Char × List Nat)) (k : Char) (v : List Nat) : List (Char × List Nat) :=
  match d with
  | [] => [(k, v)]
  | (k', v') :: t => if k' = k then (k, v) :: t else (k', v') :: dictSetChar t k v

/-- The `b2j` index of `SequenceMatcher.__chain_b`: for each character of
`b`, the ascending list of its positions. -/
def buildB2j (b : List Char) : List (Char × List Nat) :=
  (b.enum).foldl
    (fun acc ic =>
      match acc.lookup ic.2 with
      | some js => dictSetChar acc ic.2 (js ++ [ic.1])
      | none => acc ++ [(ic.2, [ic.1])])
    []

/-- The autojunk purge of `__chain_b`: when `len(b) >= 200`, characters
occurring more than `len(b) // 100 + 1` times are dropped from `b2j`. -/
def purgePopular (b2j : List (Char × List Nat)) (n : Nat) : List (Char × List Nat) :=
  if 200 ≤ n then
    b2j.filter (fun p => ¬ (n / 100 + 1 < p.2.length))
  else
    b2j

/-- State of `find_longest_match`: current best block start positions and
size. -/
structure FLMBest where
  besti : Nat
  bestj : Nat
  bestsize : Nat
deriving Repr, DecidableEq

/-- Inner loop of `find_longest_match` for one position `i` of `a`: scans
the occurrences `js` of `a[i]` in `b` clipped to `[blo, bhi)`, building
the new `j2len` table (run lengths ending at `(i, j)`) and updating the
best block; lookups read the previous row `j2len`. -/
def flmInner (i : Nat) (js : List Nat) (blo bhi : Nat)
    (j2len : List (Nat × Nat)) (st : FLMBest) : List (Nat × Nat) × FLMBest :=
  ((js.dropWhile (· < blo)).takeWhile (· < bhi)).foldl
    (fun acc j =>
      let k := (if j = 0 then 0 else (j2len.lookup (j - 1)).getD 0) + 1
      let st' := if k > acc.2.bestsize then FLMBest.mk (i + 1 - k) (j + 1 - k) k else acc.2
      ((j, k) :: acc.1, st'))
    ([], st)

/-- Leftward extension loop of `find_longest_match` (the junk set is
empty because the scorer constructs `SequenceMatcher(None, ...)`, so the
`isbjunk` tests are constantly false and the two junk-extension loops
never run). Fuel is `besti`, which bounds the number of iterations. -/
def flmExtendLeft (a b : List Char) (alo blo : Nat) :
    Nat → Nat → Nat → Nat → FLMBest
  | 0, besti, bestj, bestsize => FLMBest.mk besti bestj bestsize
  | fuel + 1, besti, bestj, bestsize =>
    if alo < besti && blo < bestj &&
        (a.getD (besti - 1) ' ' = b.getD (bestj - 1) ' ') then
      flmExtendLeft a b alo blo fuel (besti - 1) (bestj - 1) (bestsize + 1)
    else
      FLMBest.mk besti bestj bestsize

/-- Rightward extension loop of `find_longest_match`. Fuel bounds the
number of iterations. -/
def flmExtendRight (a b : List Char) (ahi bhi : Nat) (besti bestj : Nat) :
    Nat → Nat → Nat
  | 0, bestsize => bestsize
  | fuel + 1, bestsize =>
    if besti + bestsize < ahi && bestj + bestsize < bhi &&
        (a.getD (besti + bestsize) ' ' = b.getD (bestj + bestsize) ' ') then
      flmExtendRight a b ahi bhi besti bestj fuel (bestsize + 1)
    else
      bestsize

/-- `SequenceMatcher.find_longest_match` restricted to `a[alo:ahi]` and
`b[blo:bhi]`: dynamic-programming sweep over `i`, then the extension
loops. -/
def findLongestMatchIn (a b : List Char) (b2j : List (Char × List Nat))
    (alo ahi blo bhi : Nat) : FLMBest :=
  let swept :=
    ((List.range' alo (ahi - alo)).foldl
      (fun (acc : List (Nat × Nat) × FLMBest) i =>
        flmInner i (((b2j.lookup (a.getD i ' ')).getD [])) blo bhi acc.1 acc.2)
      ([], FLMBest.mk alo blo 0)).2
  let ext := flmExtendLeft a b alo blo swept.besti swept.besti swept.bestj swept.bestsize
  let size := flmExtendRight a b ahi bhi ext.besti ext.bestj (ahi - (ext.besti + ext.bestsize)) ext.bestsize
  FLMBest.mk ext.besti ext.bestj size

/-- Work-list recursion of `SequenceMatcher.get_matching_blocks`; the
stack top is the list head (Python pops from the end of the queue and the
last pushed fragment is examined first). Fuel `la + lb + 2` dominates the
number of pops. -/
def matchingBlocksAux (a b : List Char) (b2j : List (Char × List Nat)) :
    Nat → List (Nat × Nat × Nat × Nat) → List FLMBest → List FLMBest
  | 0, _, acc => acc
  | _ + 1, [], acc => acc
  | fuel + 1, (alo, ahi, blo, bhi) :: rest, acc =>
    let x := findLongestMatchIn a b b2j alo ahi blo bhi
    if x.bestsize ≠ 0 then
      let q1 := if alo < x.besti && blo < x.bestj then
          [(alo, x.besti, blo, x.bestj)] else []
      let q2 := if x.besti + x.bestsize < ahi && x.bestj + x.bestsize < bhi then
          [(x.besti + x.bestsize, ahi, x.bestj + x.bestsize, bhi)] else []
      matchingBlocksAux a b b2j fuel (q2 ++ q1 ++ rest) (x :: acc)
    else
      matchingBlocksAux a b b2j fuel rest acc

/-- Total size of matching blocks of `SequenceMatcher(None, a, b)`. -/
def matcherTotalMatches (a b : List Char) : Nat :=
  let b2j := purgePopular (buildB2j b) b.length
  let blocks := matchingBlocksAux a b b2j (a.length + b.length + 2)
    [(0, a.length, 0, b.length)] []
  (blocks.map (fun x => x.bestsize)).sum

/-- `SequenceMatcher(None, a, b).ratio()`: `2*M / T` where `M` is the
total size of the matching blocks and `T` the total length (`1.0` when
both sequences are empty). -/
def matcherRatioValue (a b : List Char) : ℚ :=
  if a.length + b.length = 0 then 1
  else (2 * (matcherTotalMatches a b : ℚ)) / ((a.length + b.length : Nat) : ℚ)

/-- `ValidationRiskScorer._calculate_similarity`: ratio of the two
lower-cased strings. -/
def calculate_similarity (str1 str2 : String) : ℚ :=
  matcherRatioValue (lowerData str1) (lowerData str2)

/-!
Model of `datetime.strptime(dob, '%Y-%m-%d')` and of the age computation
`(datetime.now() - dob_date).days // 365` in
`ValidationRiskScorer._validate_age`.  The current instant is represented
by `nowDays`, the civil day number of today's date: for a parsed date of
birth at midnight, `timedelta.days` equals the difference of the two day
numbers regardless of the current time of day.
-/

/-- Numeric value of an ASCII digit. -/
def digitVal (c : Char) : Nat :=
  c.toNat - '0'.toNat

/-- Month alternatives of the `%m` directive, in the regex alternation
order `1[0-2] | 0[1-9] | [1-9]`; each entry is a parsed value together
with the unconsumed input, and alternatives are tried in order. -/
def monthAlts (cs : List Char) : List (Nat × List Char) :=
  (match cs with
   | c1 :: c2 :: rest =>
     if c1 = '1' && '0' ≤ c2 && c2 ≤ '2' then [(10 + digitVal c2, rest)] else []
   | _ => []) ++
  (match cs with
   | c1 :: c2 :: rest =>
     if c1 = '0' && '1' ≤ c2 && c2 ≤ '9' then [(digitVal c2, rest)] else []
   | _ => []) ++
  (match cs with
   | c1 :: rest =>
     if '1' ≤ c1 && c1 ≤ '9' then [(digitVal c1, rest)] else []
   | _ => [])

/-- Day alternatives of the `%d` directive, in the regex alternation
order `3[01] | [12]\d | 0[1-9] | [1-9]`. -/
def dayAlts (cs : List Char) : List (Nat × List Char) :=
  (match cs with
   | c1 :: c2 :: rest =>
     if c1 = '3' && (c2 = '0' || c2 = '1') then [(30 + digitVal c2, rest)] else []
   | _ => []) ++
  (match cs with
   | c1 :: c2 :: rest =>
     if (c1 = '1' || c1 = '2') && isDigitAscii c2 then
       [(10 * digitVal c1 + digitVal c2, rest)] else []
   | _ => []) ++
  (match cs with
   | c1 :: c2 :: rest =>
     if c1 = '0' && '1' ≤ c2 && c2 ≤ '9' then [(digitVal c2, rest)] else []
   | _ => []) ++
  (match cs with
   | c1 :: rest =>
     if '1' ≤ c1 && c1 ≤ '9' then [(digitVal c1, rest)] else []
   | _ => [])

/-- Leap-year rule of the proleptic Gregorian calendar. -/
def isLeap (y : Nat) : Bool :=
  y % 4 = 0 && (y % 100 ≠ 0 || y % 400 = 0)

/-- Number of days of month `m` in year `y`. -/
def daysInMonth (y m : Nat) : Nat :=
  if m = 2 then (if isLeap y then 29 else 28)
  else if m = 4 || m = 6 || m = 9 || m = 11 then 30
  else 31

/-- Parse of `'%Y-%m-%d'`: four digits, `-`, the `%m` alternation, `-`,
the `%d` alternation, end of input (with the regex engine's
backtracking over the alternations), followed by the `datetime`
constructor's range check on the day and the year.  Failure of any step
is the `ValueError` caught by the bare `except`. -/
def parseDateYMD (s : String) : Option (Nat × Nat × Nat) :=
  match s.data with
  | y1 :: y2 :: y3 :: y4 :: '-' :: rest =>
    if [y1, y2, y3, y4].all isDigitAscii then
      let y := 1000 * digitVal y1 + 100 * digitVal y2 + 10 * digitVal y3 + digitVal y4
      (monthAlts rest).findSome? fun mr =>
        match mr.2 with
        | '-' :: rest2 =>
          (dayAlts rest2).findSome? fun dr =>
            if dr.2 = [] then
              if 1 ≤ y && dr.1 ≤ daysInMonth y mr.1 then some (y, mr.1, dr.1) else none
            else none
        | _ => none
    else none
  | _ => none

/-- Civil day number of a proleptic-Gregorian date with `y ≥ 1` (count of
days since 1970-01-01, negative before). -/
def daysFromCivil (y m d : Nat) : Int :=
  let yy := if m ≤ 2 then y - 1 else y
  let era := yy / 400
  let yoe := yy % 400
  let mp := (m + 9) % 12
  let doy := (153 * mp + 2) / 5 + d - 1
  let doe := yoe * 365 + yoe / 4 - yoe / 100 + doy
  ((era * 146097 + doe : Nat) : Int) - 719468

/-- Result dictionary of `ValidationRiskScorer._validate_age`. -/
structure AgeCheck where
  valid : Bool
  age : Option Int
  reason : Option String
deriving Repr, DecidableEq

/-- `ValidationRiskScorer._validate_age`: parse the date of birth, take
`(now - dob).days // 365` and compare with the thresholds
`min_age = 18` and `max_age = 100`. An unparsable string is the caught
exception branch. -/
def validateAge (dob : String) (nowDays : Int) : AgeCheck :=
  match parseDateYMD dob with
  | none => AgeCheck.mk false none (some "Invalid date format")
  | some (y, m, d) =>
    let age := Int.fdiv (nowDays - daysFromCivil y m d) 365
    if age < 18 then
      AgeCheck.mk false (some age) (some ("Age " ++ toString age ++ " is below minimum 18"))
    else if age > 100 then
      AgeCheck.mk false (some age) (some ("Age " ++ toString age ++ " exceeds maximum 100"))
    else
      AgeCheck.mk true (some age) none

/-!
Data model of `validation_scorer.py`.
-/

/-- `RiskLevel` enumeration. -/
inductive RiskLevel
  | VERY_LOW
  | LOW
  | MEDIUM
  | HIGH
  | VERY_HIGH
deriving Repr, DecidableEq

/-- Value string of a `RiskLevel` member. -/
def RiskLevel.str : RiskLevel → String
  | .VERY_LOW => "VERY_LOW"
  | .LOW => "LOW"
  | .MEDIUM => "MEDIUM"
  | .HIGH => "HIGH"
  | .VERY_HIGH => "VERY_HIGH"

/-- `AnomalyType` enumeration. -/
inductive AnomalyType
  | MISSING_FIELD
  | MISMATCH
  | INVALID_FORMAT
  | SUSPICIOUS_PATTERN
  | AGE_INCONSISTENCY
  | DOCUMENT_QUALITY
  | DUPLICATE_ENTRY
deriving Repr, DecidableEq

/-- Form data passed to `validate_and_score`; the five keys the code
reads, each possibly absent. -/
structure FormData where
  customer_name : Option String
  dob : Option String
  address : Option String
  email : Option String
  phone : Option String
deriving Repr, DecidableEq

/-- Stored quality-check dictionary of one OCR record (`valid` read with
default `True`, `reason` read with default `'Unknown'`). -/
structure QualityCheck where
  valid : Option Bool
  reason : Option String
deriving Repr, DecidableEq

/-- One per-document OCR record as consumed by the scorer.  The
`extracted_fields` mapping is keyed by field name; a value of `none`
models a Python `None` stored under a present key (the upload path
always stores every key of `final_extracted_data`, with `None` when
extraction failed).  `dict.get` treats a `None`-valued key like an
absent one — both are falsy — but membership tests such as the
consistency check's `'name' in extracted_fields` see the key, so `None`
names reach `_calculate_similarity` and raise there.  Entries are
modelled as non-empty dictionaries, which is what the upload path
stores. -/
structure DocData where
  raw_text : Option String
  extracted_fields : Option (List (String × Option String))
  confidence_score : Option ℚ
  quality_check : Option QualityCheck
deriving Repr, DecidableEq

/-- Exceptions escaping the scorer: the `AttributeError` raised by
`_calculate_similarity` when it lower-cases a `None` operand. -/
inductive PyErr
  | attributeError (msg : String)
deriving Repr, DecidableEq

/-- A matched or mismatched field comparison entry. -/
structure MatchEntry where
  field : String
  form_value : String
  ocr_value : String
  similarity : ℚ
deriving Repr, DecidableEq

/-- Result of `_compare_extracted_fields`; `match_entries` models the
source key `matches` (a reserved word here). -/
structure DataMatchResult where
  score : Int
  match_entries : List MatchEntry
  mismatches : List MatchEntry
  missing_in_ocr : List String
deriving Repr, DecidableEq

/-- Per-document entry of `_check_document_quality`. -/
structure DocQuality where
  confidence : ℚ
  quality_check : Option QualityCheck
  issues : List String
deriving Repr, DecidableEq

/-- Result of `_check_document_quality`. -/
structure QualityResult where
  score : Int
  documents : List (String × DocQuality)
  issues : List String
deriving Repr, DecidableEq

/-- Result of `_validate_completeness`. -/
structure CompletenessResult where
  score : Int
  required_fields : List String
  missing_fields : List String
  empty_fields : List String
deriving Repr, DecidableEq

/-- One inconsistency entry of `_check_consistency`. -/
structure Inconsistency where
  field : String
  issue : String
deriving Repr, DecidableEq

/-- Result of `_check_consistency`. -/
structure ConsistencyResult where
  score : Int
  consistent_fields : List String
  inconsistencies : List Inconsistency
deriving Repr, DecidableEq

/-- One invalid-format entry of `_validate_formats`. -/
structure InvalidFormat where
  field : String
  value : String
  issue : String
deriving Repr, DecidableEq

/-- Result of `_validate_formats`. -/
structure FormatResult where
  score : Int
  valid_formats : List String
  invalid_formats : List InvalidFormat
deriving Repr, DecidableEq

/-- One anomaly record of `_detect_anomalies` (the `similarity` key is
present only on mismatch anomalies). -/
structure Anomaly where
  type : AnomalyType
  field : String
  severity : String
  description : String
  similarity : Option ℚ
deriving Repr, DecidableEq

/-- The `scores_breakdown` dictionary: the six sub-scores in insertion
order. -/
structure Breakdown where
  data_match : Int
  document_quality : Int
  completeness : Int
  consistency : Int
  format_validation : Int
  anomaly_count : Int
deriving Repr, DecidableEq

/-- The complete validation report returned by `validate_and_score`; the
`validations` sub-dictionary is flattened into its five fixed keys. -/
structure ValidationReport where
  is_valid : Bool
  risk_score : Int
  risk_level : RiskLevel
  anomalies : List Anomaly
  data_match : DataMatchResult
  document_quality : QualityResult
  completeness : CompletenessResult
  consistency : ConsistencyResult
  format_validation : FormatResult
  recommendations : List String
  scores_breakdown : Breakdown
deriving Repr, DecidableEq

/-- Read of `form_data.get(key)` on the modelled form dictionary. -/
def formGet (fd : FormData) (k : String) : Option String :=
  if k = "customer_name" then fd.customer_name
  else if k = "dob" then fd.dob
  else if k = "address" then fd.address
  else if k = "email" then fd.email
  else if k = "phone" then fd.phone
  else none

/-- Items of the form dictionary in its construction order (the callers
build it in this key order), omitting absent keys. -/
def formItems (fd : FormData) : List (String × String) :=
  (match fd.customer_name with | some v => [("customer_name", v)] | none => []) ++
  (match fd.dob with | some v => [("dob", v)] | none => []) ++
  (match fd.address with | some v => [("address", v)] | none => []) ++
  (match fd.email with | some v => [("email", v)] | none => []) ++
  (match fd.phone with | some v => [("phone", v)] | none => [])

/-- First truthy value of `doc_data['extracted_fields'].get(field)` over
the documents in insertion order; `none` when every document lacks a
truthy value (the loop's final falsy `ocr_value`).  A `None`-valued key
is falsy exactly like an absent one here, because `dict.get` returns
`None` for both. -/
def ocrFirstTruthy (ocr : List (String × DocData)) (field : String) : Option String :=
  match ocr with
  | [] => none
  | (_, dd) :: t =>
    match dd.extracted_fields with
    | some ef =>
      match ef.lookup field with
      | some (some v) => if v ≠ "" then some v else ocrFirstTruthy t field
      | _ => ocrFirstTruthy t field
    | none => ocrFirstTruthy t field

/-!
Sub-validators of `ValidationRiskScorer`.
-/

/-- The `comparison_fields` table of `_compare_extracted_fields`:
OCR field name paired with form field name, in dict order. -/
def comparisonFields : List (String × String) :=
  [("name", "customer_name"), ("dob", "dob"), ("address", "address")]

/-- Outcome of one iteration of the comparison loop. -/
inductive FieldCmp
  | missing
  | matched (e : MatchEntry)
  | mismatched (e : MatchEntry)
deriving Repr, DecidableEq

/-- One iteration of the `_compare_extracted_fields` loop for the pair
`(ocrField, formField)`. -/
def compareOneField (fd : FormData) (ocr : List (String × DocData))
    (ocrField formField : String) : FieldCmp :=
  let formValue := (formGet fd formField).getD ""
  match ocrFirstTruthy ocr ocrField with
  | none => .missing
  | some v =>
    let sim := calculate_similarity formValue v
    if sim ≥ 8/10 then .matched (MatchEntry.mk ocrField formValue v sim)
    else .mismatched (MatchEntry.mk ocrField formValue v sim)

/-- `ValidationRiskScorer._compare_extracted_fields`. -/
def compareExtractedFields (fd : FormData) (ocr : List (String × DocData)) : DataMatchResult :=
  if ocr.isEmpty then
    DataMatchResult.mk 0 [] [] ["All fields"]
  else
    let rs := comparisonFields.map (fun p => (p.1, compareOneField fd ocr p.1 p.2))
    let ms := rs.filterMap (fun x => match x.2 with | .matched e => some e | _ => none)
    let mms := rs.filterMap (fun x => match x.2 with | .mismatched e => some e | _ => none)
    let missing := rs.filterMap (fun x => match x.2 with | .missing => some x.1 | _ => none)
    let score := pyTrunc (((ms.length : ℚ) / 3) * 100)
    DataMatchResult.mk score ms mms missing

/-- Per-document body of the `_check_document_quality` loop. -/
def checkOneDocQuality (dd : DocData) : DocQuality :=
  let confIssues :=
    match dd.confidence_score with
    | some c => if c < 7/10 then ["Low OCR confidence: " ++ fmtPercent2 c] else []
    | none => []
  let qcIssues :=
    match dd.quality_check with
    | some q =>
      if (q.valid.getD true) = false then
        ["Quality issue: " ++ (q.reason.getD "Unknown")]
      else []
    | none => []
  DocQuality.mk ((dd.confidence_score).getD 0) dd.quality_check (confIssues ++ qcIssues)

/-- `ValidationRiskScorer._check_document_quality`. -/
def checkDocumentQuality (ocr : List (String × DocData)) : QualityResult :=
  if ocr.isEmpty then
    QualityResult.mk 0 [] ["No documents uploaded"]
  else
    let docs := ocr.map (fun p => (p.1, checkOneDocQuality p.2))
    let issues := (docs.map (fun p => p.2.issues)).join
    let confs := ocr.filterMap (fun p => p.2.confidence_score)
    let score :=
      if 0 < confs.length then pyTrunc ((confs.sum / (confs.length : ℚ)) * 100) else 100
    QualityResult.mk score docs issues

/-- The `required_form_fields` list of `_validate_completeness`. -/
def requiredFormFields : List String :=
  ["customer_name", "dob", "address"]

/-- The `required_docs` list of `_validate_completeness`. -/
def requiredDocs : List String :=
  ["pan", "aadhaar"]

/-- `ValidationRiskScorer._validate_completeness`: a required form field
is missing when the key is absent, empty when its value is falsy or
whitespace; a required document is missing when its OCR entry is absent. -/
def validateCompleteness (fd : FormData) (ocr : List (String × DocData)) : CompletenessResult :=
  let missingF := requiredFormFields.filter (fun f => (formGet fd f).isNone)
  let emptyF := requiredFormFields.filter (fun f =>
    match formGet fd f with
    | some v => v = "" || isBlank v
    | none => false)
  let missingD := (requiredDocs.filter (fun d => (ocr.lookup d).isNone)).map (· ++ "_document")
  let missing := missingF ++ missingD
  let cnt : Int := missing.length + emptyF.length
  let score := pyTrunc ((((5 : Int) - cnt : Int) : ℚ) / 5 * 100)
  CompletenessResult.mk score requiredFormFields missing emptyF

/-- Names collected by the consistency check: for each document whose
`extracted_fields` contains the key `name`, that value — including
`none` for a stored Python `None`, which the membership test lets
through. -/
def docNames (ocr : List (String × DocData)) : List (Option String) :=
  ocr.filterMap (fun p =>
    match p.2.extracted_fields with
    | some ef => ef.lookup "name"
    | none => none)

/-- The age-consistency step of `_check_consistency`: the pair of lists
(`consistent_fields` contribution, `inconsistencies` contribution). -/
def ageConsistency (fd : FormData) (nowDays : Int) :
    List String × List Inconsistency :=
  match fd.dob with
  | some dob =>
    if dob ≠ "" then
      let ac := validateAge dob nowDays
      if ac.valid then (["age"], [])
      else ([], [Inconsistency.mk "age" (ac.reason.getD "")])
    else ([], [])
  | none => ([], [])

/-- The comparison loop of the name-consistency step over `names[1:]`:
each iteration lower-cases both operands, so it raises `AttributeError`
at the first iteration in which the base name or the current name is
`None`; otherwise it records one inconsistency per similarity below 0.7
and a passing comparison contributes nothing. -/
def compareNamesLoop (base : Option String) :
    List (Option String) → Except PyErr (List Inconsistency)
  | [] => .ok []
  | n :: rest =>
    match base, n with
    | some b, some s =>
      match compareNamesLoop base rest with
      | .ok tailIncons =>
        .ok ((if calculate_similarity b s < 7/10 then
            [Inconsistency.mk "name"
              ("Name mismatch across documents: " ++ b ++ " vs " ++ s)]
          else []) ++ tailIncons)
      | .error e => .error e
    | _, _ => .error (.attributeError "'NoneType' object has no attribute 'lower'")

/-- The cross-document name step of `_check_consistency`: the comparison
loop runs only when at least two names were collected, and it is the one
place a stored `None` name crashes the scorer. -/
def nameInconsistencies (ocr : List (String × DocData)) :
    Except PyErr (List Inconsistency) :=
  if ocr.isEmpty then .ok []
  else
    match docNames ocr with
    | base :: n :: rest => compareNamesLoop base (n :: rest)
    | _ => .ok []

/-- The address step of `_check_consistency`: one inconsistency when a
present address is shorter than 20 characters; a passing check
contributes nothing. -/
def addressInconsistencies (fd : FormData) : List Inconsistency :=
  let address := (fd.address).getD ""
  if address ≠ "" && address.length < 20 then
    [Inconsistency.mk "address" "Address too short (minimum 20 characters)"]
  else []

/-- `ValidationRiskScorer._check_consistency`; a raising name comparison
discards the partially built result and propagates the exception. -/
def checkConsistency (fd : FormData) (ocr : List (String × DocData))
    (nowDays : Int) : Except PyErr ConsistencyResult :=
  let ageResults := ageConsistency fd nowDays
  match nameInconsistencies ocr with
  | .error e => .error e
  | .ok nameIncons =>
    let consistent := ageResults.1
    let incons := ageResults.2 ++ nameIncons ++ addressInconsistencies fd
    let total := consistent.length + incons.length
    let score :=
      if 0 < total then pyTrunc (((consistent.length : ℚ) / (total : ℚ)) * 100) else 100
    .ok (ConsistencyResult.mk score consistent incons)

/-- Email pattern `^[a-zA-Z0-9._%+-]+@[a-zA-Z0-9.-]+\.[a-zA-Z]{2,}$`:
character class of the local part. -/
def emailLocalChar (c : Char) : Bool :=
  isAlphaAscii c || isDigitAscii c || c = '.' || c = '_' || c = '%' || c = '+' || c = '-'

/-- Character class of the domain part before the final dot. -/
def emailDomainChar (c : Char) : Bool :=
  isAlphaAscii c || isDigitAscii c || c = '.' || c = '-'

/-- Whether the part after `@` matches `[a-zA-Z0-9.-]+\.[a-zA-Z]{2,}$`:
some split point yields a non-empty domain, a literal dot, and a
top-level part of at least two letters (the engine's backtracking makes
any split position admissible). -/
def emailDomainOk (cs : List Char) : Bool :=
  (List.range cs.length).any fun i =>
    decide (0 < i) && (cs.take i).all emailDomainChar &&
    (cs.getD i '@' = '.') && (cs.drop (i + 1)).all isAlphaAscii &&
    decide (2 ≤ cs.length - (i + 1))

/-- `ValidationRiskScorer._is_valid_email`. -/
def isValidEmail (email : String) : Bool :=
  match email.data.splitOnP (· = '@') with
  | loc :: rest1 =>
    match rest1 with
    | [] => false
    | _ =>
      let after := email.data.drop (loc.length + 1)
      (¬ loc.isEmpty) && loc.all emailLocalChar && (¬ after.any (· = '@')) &&
        emailDomainOk after
  | [] => false

/-- `ValidationRiskScorer._is_valid_phone`: 10 or 12 digits after
stripping non-digit characters. -/
def isValidPhone (phone : String) : Bool :=
  let digits := phone.data.filter isDigitAscii
  digits.length = 10 || digits.length = 12

/-- `ValidationRiskScorer._is_valid_pan`: pattern
`^[A-Z]{5}[0-9]{4}[A-Z]{1}$`. -/
def isValidPan (pan : String) : Bool :=
  match pan.data with
  | [a, b, c, d, e, f, g, h, i, j] =>
    [a, b, c, d, e].all isUpperAscii && [f, g, h, i].all isDigitAscii && isUpperAscii j
  | _ => false

/-- `ValidationRiskScorer._is_valid_aadhaar`: 12 digits after stripping
non-digits, first digit not 0 or 1. -/
def isValidAadhaar (aadhaar : String) : Bool :=
  let digits := aadhaar.data.filter isDigitAscii
  digits.length = 12 && (match digits with
    | c :: _ => ¬ (c = '0' || c = '1')
    | [] => false)

/-- `ValidationRiskScorer._validate_formats`. -/
def validateFormats (fd : FormData) (ocr : List (String × DocData)) : FormatResult :=
  let emailR : List String × List InvalidFormat :=
    match fd.email with
    | some e =>
      if e ≠ "" then
        if isValidEmail e then (["email"], [])
        else ([], [InvalidFormat.mk "email" e "Invalid email format"])
      else ([], [])
    | none => ([], [])
  let phoneR : List String × List InvalidFormat :=
    match fd.phone with
    | some p =>
      if p ≠ "" then
        if isValidPhone p then (["phone"], [])
        else ([], [InvalidFormat.mk "phone" p "Invalid phone format"])
      else ([], [])
    | none => ([], [])
  let panR : List String × List InvalidFormat :=
    match ocrFirstTruthy ocr "pan" with
    | some pan =>
      if isValidPan pan then (["pan"], [])
      else ([], [InvalidFormat.mk "pan" pan "Invalid PAN format"])
    | none => ([], [])
  let aadhaarR : List String × List InvalidFormat :=
    match ocrFirstTruthy ocr "aadhaar" with
    | some a =>
      if isValidAadhaar a then (["aadhaar"], [])
      else ([], [InvalidFormat.mk "aadhaar" a "Invalid Aadhaar format"])
    | none => ([], [])
  let valids := emailR.1 ++ phoneR.1 ++ panR.1 ++ aadhaarR.1
  let invalids := emailR.2 ++ phoneR.2 ++ panR.2 ++ aadhaarR.2
  let total := valids.length + invalids.length
  let score :=
    if 0 < total then pyTrunc (((valids.length : ℚ) / (total : ℚ)) * 100) else 100
  FormatResult.mk score valids invalids

/-- `ValidationRiskScorer._has_repeated_pattern`, first regex: a run of
three or more identical consecutive characters. -/
def hasTripleRun : List Char → Bool
  | a :: b :: c :: t => (a = b && b = c) || hasTripleRun (b :: c :: t)
  | _ => false

/-- `ValidationRiskScorer._has_repeated_pattern`: a triple character run
or a repeated word in the lower-cased text. -/
def hasRepeatedPattern (text : String) : Bool :=
  if hasTripleRun text.data then true
  else
    let words := splitWs (lowerData text)
    words.length ≠ words.dedup.length

/-- The placeholder keywords of `_detect_suspicious_patterns`. -/
def testKeywords : List String :=
  ["test", "dummy", "sample", "xxx", "example"]

/-- `ValidationRiskScorer._detect_suspicious_patterns` (its `ocr_results`
argument is unused by the body). -/
def detectSuspiciousPatterns (fd : FormData)
    (_ocr : List (String × DocData)) : List Anomaly :=
  let name := (fd.customer_name).getD ""
  let nameAnoms :=
    if name ≠ "" && hasRepeatedPattern name then
      [Anomaly.mk .SUSPICIOUS_PATTERN "customer_name" "medium"
        "Name contains suspicious repeated patterns" none]
    else []
  let keywordAnoms :=
    (formItems fd).filterMap (fun p =>
      if testKeywords.any (fun kw => strContains (lowerData p.2) kw.data) then
        some (Anomaly.mk .SUSPICIOUS_PATTERN p.1 "high"
          ("Field contains test/dummy data: " ++ p.2) none)
      else none)
  nameAnoms ++ keywordAnoms

/-- `ValidationRiskScorer._detect_anomalies`, taking the sub-results the
Python code reads back out of the threaded `validation_result` dict. -/
def detectAnomalies (fd : FormData) (ocr : List (String × DocData))
    (completeness : CompletenessResult) (dataMatch : DataMatchResult)
    (formatVal : FormatResult) (quality : QualityResult)
    (nowDays : Int) : List Anomaly :=
  let missingAnoms := completeness.missing_fields.map (fun f =>
    Anomaly.mk .MISSING_FIELD f "high"
      ("Required field \"" ++ f ++ "\" is missing") none)
  let mismatchAnoms := dataMatch.mismatches.map (fun m =>
    Anomaly.mk .MISMATCH m.field (if m.similarity < 5/10 then "high" else "medium")
      ("Mismatch: Form='" ++ m.form_value ++ "' vs OCR='" ++ m.ocr_value ++ "'")
      (some m.similarity))
  let formatAnoms := formatVal.invalid_formats.map (fun iv =>
    Anomaly.mk .INVALID_FORMAT iv.field "medium" iv.issue none)
  let ageAnoms :=
    match fd.dob with
    | some dob =>
      if dob ≠ "" then
        let ac := validateAge dob nowDays
        if ac.valid then []
        else [Anomaly.mk .AGE_INCONSISTENCY "dob" "high" (ac.reason.getD "") none]
      else []
    | none => []
  let qualityAnoms := quality.issues.map (fun i =>
    Anomaly.mk .DOCUMENT_QUALITY "document" "medium" i none)
  let suspicious := detectSuspiciousPatterns fd ocr
  missingAnoms ++ mismatchAnoms ++ formatAnoms ++ ageAnoms ++ qualityAnoms ++ suspicious

/-- The `severity_weights` lookup of `_score_anomalies`
(`{'low': 5, 'medium': 15, 'high': 30}` with dict-get default 15). -/
def severityWeight (s : String) : Int :=
  if s = "low" then 5
  else if s = "medium" then 15
  else if s = "high" then 30
  else 15

/-- `ValidationRiskScorer._score_anomalies`. -/
def scoreAnomalies (anomalies : List Anomaly) : Int :=
  if anomalies.isEmpty then 100
  else max 0 (100 - (anomalies.map (fun a => severityWeight a.severity)).sum)

/-- The weight table installed by `ValidationRiskScorer.__init__`; the
constructor performs no validation of the table. -/
def defaultWeights : List (String × ℚ) :=
  [("data_match", 25/100), ("document_quality", 15/100), ("completeness", 20/100),
   ("consistency", 20/100), ("format_validation", 10/100), ("anomaly_count", 10/100)]

/-- `scores_breakdown.get(category, 0)` on the modelled breakdown. -/
def breakdownGet (b : Breakdown) (k : String) : Int :=
  if k = "data_match" then b.data_match
  else if k = "document_quality" then b.document_quality
  else if k = "completeness" then b.completeness
  else if k = "consistency" then b.consistency
  else if k = "format_validation" then b.format_validation
  else if k = "anomaly_count" then b.anomaly_count
  else 0

/-- `ValidationRiskScorer._calculate_risk_score`: iteration over the
instance's weight table, summing `(100 - category_score) * weight`, then
`int(...)` truncation. -/
def calculateRiskScore (weights : List (String × ℚ)) (b : Breakdown) : Int :=
  pyTrunc (weights.foldl
    (fun acc kw => acc + ((100 - breakdownGet b kw.1 : Int) : ℚ) * kw.2) 0)

/-- `ValidationRiskScorer._determine_risk_level`. -/
def determineRiskLevel (riskScore : Int) : RiskLevel :=
  if riskScore ≤ 20 then .VERY_LOW
  else if riskScore ≤ 40 then .LOW
  else if riskScore ≤ 60 then .MEDIUM
  else if riskScore ≤ 80 then .HIGH
  else .VERY_HIGH

/-- `ValidationRiskScorer._generate_recommendations`, reading the fields
of the threaded result dict. -/
def generateRecommendations (riskLevel : RiskLevel) (anomalies : List Anomaly)
    (dataMatch : DataMatchResult) (completeness : CompletenessResult)
    (quality : QualityResult) : List String :=
  let levelRec :=
    match riskLevel with
    | .VERY_HIGH => "⛔ REJECT: Very high risk - Manual verification strongly recommended"
    | .HIGH => "⚠️ CAUTION: High risk - Thorough manual review required"
    | .MEDIUM => "⚡ REVIEW: Medium risk - Additional verification recommended"
    | .LOW => "✓ APPROVE: Low risk - Standard verification sufficient"
    | .VERY_LOW => "✓✓ APPROVE: Very low risk - Minimal verification needed"
  let highCount := anomalies.countP (fun a => a.severity = "high")
  let highRec :=
    if 0 < highCount then
      ["Address " ++ toString highCount ++ " high-severity anomalies before approval"]
    else []
  let dmRec :=
    if dataMatch.score < 80 then
      ["Re-upload documents with better quality for accurate OCR"]
    else []
  let missingRec :=
    if ¬ completeness.missing_fields.isEmpty then
      ["Complete missing fields: " ++ String.intercalate ", " completeness.missing_fields]
    else []
  let qualityRec :=
    if quality.score < 70 then ["Request higher quality document scans"] else []
  [levelRec] ++ highRec ++ dmRec ++ missingRec ++ qualityRec

/-- `ValidationRiskScorer._is_validation_passed` (threshold
`max_anomalies = 3`). -/
def isValidationPassed (riskScore : Int) (riskLevel : RiskLevel)
    (anomalies : List Anomaly) (completenessScore : Int) : Bool :=
  if 3 < (anomalies.filter (fun a => a.severity = "high")).length then false
  else if riskLevel = .VERY_HIGH || riskLevel = .HIGH then false
  else if 70 < riskScore then false
  else if completenessScore < 80 then false
  else true

/-- The report assembled by `validate_and_score` from its sub-validator
results.  Every sub-step other than the consistency check is total (all
of them guard falsy values before use), so the total steps are gathered
here; they are pure and independent, so computing them after the
consistency check is observationally identical to the source order. -/
def buildReport (fd : FormData) (ocr : List (String × DocData)) (nowDays : Int)
    (consistency : ConsistencyResult) : ValidationReport :=
  let dataMatch := compareExtractedFields fd ocr
  let quality := checkDocumentQuality ocr
  let completeness := validateCompleteness fd ocr
  let formatVal := validateFormats fd ocr
  let anomalies := detectAnomalies fd ocr completeness dataMatch formatVal quality nowDays
  let breakdown := Breakdown.mk dataMatch.score quality.score completeness.score
    consistency.score formatVal.score (scoreAnomalies anomalies)
  let riskScore := calculateRiskScore defaultWeights breakdown
  let riskLevel := determineRiskLevel riskScore
  let recs := generateRecommendations riskLevel anomalies dataMatch completeness quality
  let valid := isValidationPassed riskScore riskLevel anomalies completeness.score
  ValidationReport.mk valid riskScore riskLevel anomalies dataMatch quality completeness
    consistency formatVal recs breakdown

/-- `ValidationRiskScorer.validate_and_score`: the orchestrator, run at
the current date `nowDays`.  The one sub-step that can raise is the
consistency check's name comparison; its uncaught `AttributeError`
aborts the run with no report, exactly as in the program. -/
def validate_and_score (fd : FormData) (ocr : List (String × DocData))
    (nowDays : Int) : Except PyErr ValidationReport :=
  match checkConsistency fd ocr nowDays with
  | .error e => .error e
  | .ok consistency => .ok (buildReport fd ocr nowDays consistency)

/-!
Model of the case-lifecycle endpoints of `main.py`.  An endpoint is a
function of the acting user, the case found in the store, and its request
arguments; the transport-layer steps (token decoding, ObjectId parsing,
the 404 for an unknown id) happen before the modelled logic.  HTTP errors
are modelled by `ApiError` (403 → `forbidden`, 400 → `badRequest`,
404 → `notFound`); an error result returns no case, matching the fact
that the endpoint raises before its single `update_one` write.
`datetime.utcnow()` is an explicit `now` parameter and the
`random.randint(70, 85)` draw of the AI review is an explicit `randBase`
parameter.  The OCR/NLP collaborators of the upload endpoint are passed
as their result records.
-/

/-- `CaseStatus` enumeration. -/
inductive CaseStatus
  | DRAFT
  | SUBMITTED
  | AI_REVIEWED
  | CHECKER_APPROVED
  | CHECKER_REJECTED
deriving Repr, DecidableEq

/-- Stored status string of a case, as interpolated into error details. -/
def CaseStatus.str : CaseStatus → String
  | .DRAFT => "DRAFT"
  | .SUBMITTED => "SUBMITTED"
  | .AI_REVIEWED => "AI_REVIEWED"
  | .CHECKER_APPROVED => "CHECKER_APPROVED"
  | .CHECKER_REJECTED => "CHECKER_REJECTED"

/-- `AuditAction` enumeration. -/
inductive AuditAction
  | CREATED
  | SUBMITTED
  | AI_REVIEWED
  | CHECKER_APPROVED
  | CHECKER_REJECTED
  | UPDATED
  | DOCUMENT_UPLOADED
  | OCR_PROCESSED
deriving Repr, DecidableEq

/-- One audit-trail entry; `byUser` models the source key `by` (a
reserved word here). -/
structure AuditEntry where
  timestamp : Int
  action : AuditAction
  byUser : String
  role : String
  comments : String
deriving Repr, DecidableEq

/-- The acting user as produced by `get_current_user_with_db`. -/
structure CurrentUser where
  id : String
  email : String
  full_name : String
  role : String
deriving Repr, DecidableEq

/-- The `customer_profile` sub-document of a case. -/
structure CustomerProfile where
  name : String
  dob : String
  address : String
  email : Option String
  phone : Option String
deriving Repr, DecidableEq

/-- A stored KYC case. -/
structure KycCase where
  status : CaseStatus
  customer_profile : CustomerProfile
  created_by : String
  created_by_name : String
  reviewed_by : Option String
  reviewed_by_name : Option String
  documents : List (String × String)
  ocr_results : List (String × DocData)
  validation_result : Option ValidationReport
  risk_score : Int
  risk_level : RiskLevel
  data_match_score : ℚ
  ai_score : Option Int
  audit_trail : List AuditEntry
  created_at : Int
  updated_at : Int
deriving Repr, DecidableEq

/-- Typed HTTP errors raised by the endpoints (400 → `badRequest`,
403 → `forbidden`, 404 → `notFound`, and the generic
`except Exception` handler's 500 → `internalError`). -/
inductive ApiError
  | badRequest (detail : String)
  | forbidden (detail : String)
  | notFound (detail : String)
  | internalError (detail : String)
deriving Repr, DecidableEq

/-- Request body of `POST /api/cases`. -/
structure CaseCreateRequest where
  customer_name : String
  dob : String
  address : String
  email : Option String
  phone : Option String
deriving Repr, DecidableEq

/-- `create_case`: MAKER-only creation of a DRAFT case with one CREATED
audit entry. -/
def create_case (user : CurrentUser) (req : CaseCreateRequest) (now : Int) :
    Except ApiError KycCase :=
  if user.role ≠ "MAKER" then .error (.forbidden "Only MAKER can create cases")
  else .ok
    { status := .DRAFT
      customer_profile := CustomerProfile.mk req.customer_name req.dob req.address req.email req.phone
      created_by := user.id
      created_by_name := user.full_name
      reviewed_by := none
      reviewed_by_name := none
      documents := []
      ocr_results := []
      validation_result := none
      risk_score := 0
      risk_level := .LOW
      data_match_score := 0
      ai_score := none
      audit_trail := [AuditEntry.mk now .CREATED user.full_name user.role "Case created"]
      created_at := now
      updated_at := now }

/-- The `update_one` of `submit_case` (the part of the endpoint before
`run_ai_review` is invoked): guards, then the DRAFT → SUBMITTED write
with its single audit push. -/
def submit_case_update (user : CurrentUser) (kc : KycCase)
    (comments : Option String) (now : Int) : Except ApiError KycCase :=
  if user.role ≠ "MAKER" then .error (.forbidden "Only MAKER can submit cases")
  else if kc.created_by ≠ user.id then .error (.forbidden "Can only submit your own cases")
  else if kc.status ≠ .DRAFT then .error (.badRequest "Can only submit DRAFT cases")
  else .ok { kc with
    status := .SUBMITTED
    updated_at := now
    audit_trail := kc.audit_trail ++
      [AuditEntry.mk now .SUBMITTED user.full_name user.role
        (pyOrStr comments "Case submitted for review")] }

/-- `run_ai_review`: unconditional write of AI_REVIEWED with the
heuristic score `min(randBase + boosts, 100)` and one audit push.  It is
invoked only by `submit_case`, immediately after a successful submit. -/
def run_ai_review (kc : KycCase) (randBase : Int) (now : Int) : KycCase :=
  let withMatch :=
    if kc.data_match_score > 8/10 then randBase + 10
    else if kc.data_match_score > 6/10 then randBase + 5
    else randBase
  let confs := kc.ocr_results.filterMap (fun p => p.2.confidence_score)
  let boosted :=
    if 0 < confs.length && decide ((confs.sum / (confs.length : ℚ)) > 8/10) then
      withMatch + 5
    else withMatch
  let aiScore := min boosted 100
  { kc with
    status := .AI_REVIEWED
    ai_score := some aiScore
    updated_at := now
    audit_trail := kc.audit_trail ++
      [AuditEntry.mk now .AI_REVIEWED "AI System" "SYSTEM"
        ("AI verification score: " ++ toString aiScore ++ "/100")] }

/-- `POST /api/cases/{id}/submit`: the submit write followed by the inline
`run_ai_review` call. -/
def submit_case (user : CurrentUser) (kc : KycCase) (comments : Option String)
    (randBase : Int) (now : Int) : Except ApiError KycCase :=
  match submit_case_update user kc comments now with
  | .error e => .error e
  | .ok kc1 => .ok (run_ai_review kc1 randBase now)

/-- `POST /api/cases/{id}/approve`: CHECKER-only, segregation-of-duties
guard, then the status-precondition guard, then the CHECKER_APPROVED
write with one audit push. -/
def approve_case (user : CurrentUser) (kc : KycCase) (comments : Option String)
    (now : Int) : Except ApiError KycCase :=
  if user.role ≠ "CHECKER" then .error (.forbidden "Only CHECKER can approve cases")
  else if kc.created_by = user.id then
    .error (.forbidden "Cannot approve your own case - Segregation of duties violation")
  else if kc.status ≠ .SUBMITTED && kc.status ≠ .AI_REVIEWED then
    .error (.badRequest ("Cannot approve case in " ++ kc.status.str ++ " status"))
  else .ok { kc with
    status := .CHECKER_APPROVED
    reviewed_by := some user.id
    reviewed_by_name := some user.full_name
    updated_at := now
    audit_trail := kc.audit_trail ++
      [AuditEntry.mk now .CHECKER_APPROVED user.full_name user.role
        (pyOrStr comments "Case approved")] }

/-- `POST /api/cases/{id}/reject`: the mirror image of approve. -/
def reject_case (user : CurrentUser) (kc : KycCase) (comments : Option String)
    (now : Int) : Except ApiError KycCase :=
  if user.role ≠ "CHECKER" then .error (.forbidden "Only CHECKER can reject cases")
  else if kc.created_by = user.id then
    .error (.forbidden "Cannot reject your own case - Segregation of duties violation")
  else if kc.status ≠ .SUBMITTED && kc.status ≠ .AI_REVIEWED then
    .error (.badRequest ("Cannot reject case in " ++ kc.status.str ++ " status"))
  else .ok { kc with
    status := .CHECKER_REJECTED
    reviewed_by := some user.id
    reviewed_by_name := some user.full_name
    updated_at := now
    audit_trail := kc.audit_trail ++
      [AuditEntry.mk now .CHECKER_REJECTED user.full_name user.role
        (pyOrStr comments "Case rejected")] }

/-- Result record of `ocr_processor.validate_document_quality` as far as
the endpoint reads it. -/
structure QualityOut where
  valid : Bool
  reason : String
deriving Repr, DecidableEq

/-- Result record of `process_document_with_nlp` as far as the endpoint
reads it; `final_extracted_data` values are `none` when both the NLP and
the OCR extraction produced nothing (stored as Python `None`). -/
structure CombinedResult where
  raw_text : String
  final_extracted_data : List (String × Option String)
  confidence_score : ℚ
deriving Repr, DecidableEq

/-- Result record of `nlp_extractor.cross_validate_fields` as far as the
endpoint reads it. -/
structure NlpValidation where
  overall_match_score : ℚ
deriving Repr, DecidableEq

/-- The form dictionary the upload endpoint builds from the stored
customer profile. -/
def uploadFormData (kc : KycCase) : FormData :=
  FormData.mk (some kc.customer_profile.name) (some kc.customer_profile.dob)
    (some kc.customer_profile.address) none none

/-- The OCR record the upload endpoint stores for the processed
document. -/
def uploadOcrEntry (quality : QualityOut) (combined : CombinedResult) : DocData :=
  DocData.mk (some combined.raw_text) (some combined.final_extracted_data)
    (some combined.confidence_score)
    (some (QualityCheck.mk (some quality.valid) (some quality.reason)))

/-- The `ocr_results` map after inserting the new record. -/
def uploadOcr (kc : KycCase) (docType : String) (quality : QualityOut)
    (combined : CombinedResult) : List (String × DocData) :=
  dictSet kc.ocr_results docType (uploadOcrEntry quality combined)

/-- `POST /api/cases/{id}/upload`: creator-only upload with document-type
and quality guards — the endpoint has no case-status guard.  The case is
re-scored with `validate_and_score` inside the `try` block: if the scorer
raises (the `None`-name `AttributeError` of the consistency check), the
generic handler turns it into an HTTP 500 and nothing is written.  On
success the new OCR record is stored and one OCR_PROCESSED audit entry is
pushed; the status field is not among the written fields. -/
def upload_document (user : CurrentUser) (kc : KycCase) (docType filename : String)
    (quality : QualityOut) (combined : CombinedResult) (nlpVal : NlpValidation)
    (now : Int) : Except ApiError KycCase :=
  if kc.created_by ≠ user.id then
    .error (.forbidden "You can only upload documents to your own cases")
  else if docType ≠ "pan" && docType ≠ "aadhaar" && docType ≠ "passport" then
    .error (.badRequest "Invalid document type")
  else if ¬ quality.valid then
    .error (.badRequest ("Document quality check failed: " ++ quality.reason))
  else
    match validate_and_score (uploadFormData kc) (uploadOcr kc docType quality combined) now with
    | .error (.attributeError msg) =>
      .error (.internalError ("Error processing document: " ++ msg))
    | .ok risk =>
      .ok { kc with
        documents := dictSet kc.documents docType filename
        ocr_results := uploadOcr kc docType quality combined
        validation_result := some risk
        risk_score := risk.risk_score
        risk_level := risk.risk_level
        data_match_score := nlpVal.overall_match_score
        updated_at := now
        audit_trail := kc.audit_trail ++
          [AuditEntry.mk now .OCR_PROCESSED user.full_name user.role
            (upperStr docType ++ " processed - Confidence: " ++
              fmtPercent2 combined.confidence_score ++ ", Risk: " ++ risk.risk_level.str)] }

/-!
Theorems.  Shared concrete data for witnesses and counterexamples.
-/

/-- Whether an endpoint call succeeded. -/
def exceptIsOk {ε α : Type} : Except ε α → Bool
  | .ok _ => true
  | .error _ => false

/-- Sample declared profile used by concrete test cases. -/
def sampleProfile : CustomerProfile :=
  CustomerProfile.mk "John Doe" "1990-06-15"
    "123 Main Street, Mumbai, Maharashtra, 400001" none none

/-- A stored case of the given status created by maker `maker-1`. -/
def sampleCase (st : CaseStatus) : KycCase :=
  { status := st
    customer_profile := sampleProfile
    created_by := "maker-1"
    created_by_name := "Maya"
    reviewed_by := none
    reviewed_by_name := none
    documents := []
    ocr_results := []
    validation_result := none
    risk_score := 0
    risk_level := .LOW
    data_match_score := 0
    ai_score := none
    audit_trail := [AuditEntry.mk 0 .CREATED "Maya" "MAKER" "Case created"]
    created_at := 0
    updated_at := 0 }

/-- The maker who created `sampleCase`. -/
def makerUser : CurrentUser :=
  CurrentUser.mk "maker-1" "maya@bank.test" "Maya" "MAKER"

/-- An independent checker. -/
def checkerUser : CurrentUser :=
  CurrentUser.mk "checker-1" "carl@bank.test" "Carl" "CHECKER"

/-- A checker whose identity equals the creator of `sampleCase`. -/
def checkerSameId : CurrentUser :=
  CurrentUser.mk "maker-1" "maya@bank.test" "Maya" "CHECKER"

/-- Sample collaborator outputs for a successful upload. -/
def sampleQuality : QualityOut :=
  QualityOut.mk true "OK"

/-- Sample OCR/NLP combined record for an uploaded PAN document. -/
def sampleCombined : CombinedResult :=
  CombinedResult.mk "raw text"
    [("name", some "JOHN DOE"), ("pan", some "ABCDE1234F"), ("dob", some "15/06/1990")]
    (89/100)

/-- Sample cross-validation summary. -/
def sampleNlpVal : NlpValidation :=
  NlpValidation.mk (2/3)

/-- C2.  For every case, an approve or reject call whose caller identity
equals the case creator's identity fails with a permission-denied
(HTTP 403) error regardless of the caller's role and of the case status:
a caller without the CHECKER role is stopped by the role guard and a
CHECKER caller by the segregation-of-duties guard, both of which precede
the status guard and the database write, so the failed call returns no
updated case. -/
theorem c2_segregation_of_duties (user : CurrentUser) (kc : KycCase)
    (comments : Option String) (now : Int) (h : user.id = kc.created_by) :
    (∃ d, approve_case user kc comments now = .error (.forbidden d)) ∧
    (∃ d, reject_case user kc comments now = .error (.forbidden d)) := by
  unfold approve_case reject_case
  constructor
  · by_cases hr : user.role = "CHECKER" <;> simp [hr, h.symm]
  · by_cases hr : user.role = "CHECKER" <;> simp [hr, h.symm]

/-- Whether an endpoint call failed with a permission (HTTP 403) error. -/
def isForbiddenErr (e : Except ApiError KycCase) : Bool :=
  match e with
  | .error (.forbidden _) => true
  | _ => false

/-- Status carried by a successful endpoint result. -/
def exceptStatus (e : Except ApiError KycCase) : Option CaseStatus :=
  match e with
  | .ok k => some k.status
  | .error _ => none

/-- Witness for C2 at a concrete checker whose id equals the creator id
of a submitted case. -/
theorem c2_segregation_of_duties_witness :
    isForbiddenErr (approve_case checkerSameId (sampleCase .AI_REVIEWED) none 3) = true ∧
    isForbiddenErr (reject_case checkerSameId (sampleCase .AI_REVIEWED) none 3) = true := by
  obtain ⟨⟨d1, h1⟩, ⟨d2, h2⟩⟩ :=
    c2_segregation_of_duties checkerSameId (sampleCase .AI_REVIEWED) none 3 (by decide)
  rw [h1, h2]
  exact ⟨rfl, rfl⟩

/-- Elimination of a successful submit write: the guards that must have
passed and the exact updated case. -/
theorem submit_case_update_ok_elim {u : CurrentUser} {kc : KycCase}
    {c : Option String} {n : Int} {kc' : KycCase}
    (h : submit_case_update u kc c n = .ok kc') :
    u.role = "MAKER" ∧ kc.created_by = u.id ∧ kc.status = .DRAFT ∧
    kc' = { kc with
      status := .SUBMITTED
      updated_at := n
      audit_trail := kc.audit_trail ++
        [AuditEntry.mk n .SUBMITTED u.full_name u.role
          (pyOrStr c "Case submitted for review")] } := by
  unfold submit_case_update at h
  split at h
  · cases h
  · split at h
    · cases h
    · split at h
      · cases h
      · rw [Except.ok.injEq] at h
        simp_all

/-- Elimination of a successful approve: the guards that must have
passed and the exact updated case. -/
theorem approve_case_ok_elim {u : CurrentUser} {kc : KycCase}
    {c : Option String} {n : Int} {kc' : KycCase}
    (h : approve_case u kc c n = .ok kc') :
    u.role = "CHECKER" ∧ kc.created_by ≠ u.id ∧
    (kc.status = .SUBMITTED ∨ kc.status = .AI_REVIEWED) ∧
    kc' = { kc with
      status := .CHECKER_APPROVED
      reviewed_by := some u.id
      reviewed_by_name := some u.full_name
      updated_at := n
      audit_trail := kc.audit_trail ++
        [AuditEntry.mk n .CHECKER_APPROVED u.full_name u.role
          (pyOrStr c "Case approved")] } := by
  unfold approve_case at h
  split at h
  · cases h
  · split at h
    · cases h
    · split at h
      · cases h
      · rw [Except.ok.injEq] at h
        rename_i h1 h2 h3
        refine ⟨by simpa using h1, h2, ?_, h.symm⟩
        simp only [Bool.and_eq_true, decide_eq_true_eq] at h3
        by_cases hs : kc.status = CaseStatus.SUBMITTED
        · exact Or.inl hs
        · right
          by_cases ha : kc.status = CaseStatus.AI_REVIEWED
          · exact ha
          · exact absurd (by exact ⟨hs, ha⟩) h3

/-- Elimination of a successful reject: the guards that must have passed
and the exact updated case. -/
theorem reject_case_ok_elim {u : CurrentUser} {kc : KycCase}
    {c : Option String} {n : Int} {kc' : KycCase}
    (h : reject_case u kc c n = .ok kc') :
    u.role = "CHECKER" ∧ kc.created_by ≠ u.id ∧
    (kc.status = .SUBMITTED ∨ kc.status = .AI_REVIEWED) ∧
    kc' = { kc with
      status := .CHECKER_REJECTED
      reviewed_by := some u.id
      reviewed_by_name := some u.full_name
      updated_at := n
      audit_trail := kc.audit_trail ++
        [AuditEntry.mk n .CHECKER_REJECTED u.full_name u.role
          (pyOrStr c "Case rejected")] } := by
  unfold reject_case at h
  split at h
  · cases h
  · split at h
    · cases h
    · split at h
      · cases h
      · rw [Except.ok.injEq] at h
        rename_i h1 h2 h3
        refine ⟨by simpa using h1, h2, ?_, h.symm⟩
        simp only [Bool.and_eq_true, decide_eq_true_eq] at h3
        by_cases hs : kc.status = CaseStatus.SUBMITTED
        · exact Or.inl hs
        · right
          by_cases ha : kc.status = CaseStatus.AI_REVIEWED
          · exact ha
          · exact absurd (by exact ⟨hs, ha⟩) h3

/-- Elimination of a successful upload: the guards that must have passed
(including a completed re-scoring) and the shape of the updated case. -/
theorem upload_document_ok_elim {u : CurrentUser} {kc : KycCase}
    {dt fn : String} {q : QualityOut} {cb : CombinedResult} {nv : NlpValidation}
    {n : Int} {kc' : KycCase}
    (h : upload_document u kc dt fn q cb nv n = .ok kc') :
    kc.created_by = u.id ∧ (dt = "pan" ∨ dt = "aadhaar" ∨ dt = "passport") ∧
    q.valid = true ∧ kc'.status = kc.status ∧
    ∃ r, validate_and_score (uploadFormData kc) (uploadOcr kc dt q cb) n = .ok r ∧
      kc'.audit_trail = kc.audit_trail ++
        [AuditEntry.mk n .OCR_PROCESSED u.full_name u.role
          (upperStr dt ++ " processed - Confidence: " ++
            fmtPercent2 cb.confidence_score ++ ", Risk: " ++ r.risk_level.str)] := by
  unfold upload_document at h
  split at h
  · cases h
  · split at h
    · cases h
    · split at h
      · cases h
      · rename_i h1 h2 h3
        simp only [Bool.and_eq_true, decide_eq_true_eq, not_and_or, not_not] at h1 h2 h3
        cases hv : validate_and_score (uploadFormData kc) (uploadOcr kc dt q cb) n with
        | error e =>
          cases e with
          | attributeError msg =>
            rw [hv] at h
            simp at h
        | ok r =>
          rw [hv] at h
          dsimp only at h
          rw [Except.ok.injEq] at h
          refine ⟨by tauto, by tauto, by simpa using h3, ?_, r, rfl, ?_⟩
          · rw [← h]
          · rw [← h]

/-- C3.  The case state machine: submit succeeds only from DRAFT and an
authorized submit from any other status fails with the invalid-state
(HTTP 400) error; a successful submit passes through SUBMITTED (the
first database write) and ends in AI_REVIEWED (the inline AI review);
approve and reject succeed only from SUBMITTED or AI_REVIEWED, yield the
respective terminal status, and an authorized approve/reject from any
other status fails with an invalid-state error naming the current
status; no endpoint moves a case out of a terminal status (submit,
approve and reject all fail there, and a document upload never changes
the status), so the only reachable status sequence from DRAFT is
DRAFT → SUBMITTED → AI_REVIEWED → one of
{CHECKER_APPROVED, CHECKER_REJECTED}. -/
theorem c3_state_machine :
    (∀ (u : CurrentUser) (kc : KycCase) (c : Option String) (r n : Int) (kc' : KycCase),
      submit_case u kc c r n = .ok kc' → kc.status = .DRAFT) ∧
    (∀ (u : CurrentUser) (kc : KycCase) (c : Option String) (r n : Int),
      u.role = "MAKER" → kc.created_by = u.id → kc.status ≠ .DRAFT →
      submit_case u kc c r n = .error (.badRequest "Can only submit DRAFT cases")) ∧
    (∀ (u : CurrentUser) (kc : KycCase) (c : Option String) (r n : Int) (kc' : KycCase),
      submit_case u kc c r n = .ok kc' →
      ∃ mid, submit_case_update u kc c n = .ok mid ∧ mid.status = .SUBMITTED ∧
        kc' = run_ai_review mid r n ∧ kc'.status = .AI_REVIEWED) ∧
    (∀ (u : CurrentUser) (kc : KycCase) (c : Option String) (n : Int) (kc' : KycCase),
      approve_case u kc c n = .ok kc' →
      (kc.status = .SUBMITTED ∨ kc.status = .AI_REVIEWED) ∧ kc'.status = .CHECKER_APPROVED) ∧
    (∀ (u : CurrentUser) (kc : KycCase) (c : Option String) (n : Int),
      u.role = "CHECKER" → kc.created_by ≠ u.id →
      kc.status ≠ .SUBMITTED → kc.status ≠ .AI_REVIEWED →
      approve_case u kc c n =
        .error (.badRequest ("Cannot approve case in " ++ kc.status.str ++ " status"))) ∧
    (∀ (u : CurrentUser) (kc : KycCase) (c : Option String) (n : Int) (kc' : KycCase),
      reject_case u kc c n = .ok kc' →
      (kc.status = .SUBMITTED ∨ kc.status = .AI_REVIEWED) ∧ kc'.status = .CHECKER_REJECTED) ∧
    (∀ (u : CurrentUser) (kc : KycCase) (c : Option String) (n : Int),
      u.role = "CHECKER" → kc.created_by ≠ u.id →
      kc.status ≠ .SUBMITTED → kc.status ≠ .AI_REVIEWED →
      reject_case u kc c n =
        .error (.badRequest ("Cannot reject case in " ++ kc.status.str ++ " status"))) ∧
    (∀ (u : CurrentUser) (kc : KycCase) (c : Option String) (r n : Int) (kc' : KycCase),
      kc.status = .CHECKER_APPROVED ∨ kc.status = .CHECKER_REJECTED →
      submit_case u kc c r n ≠ .ok kc' ∧ approve_case u kc c n ≠ .ok kc' ∧
        reject_case u kc c n ≠ .ok kc') ∧
    (∀ (u : CurrentUser) (kc : KycCase) (dt fn : String) (q : QualityOut)
        (cb : CombinedResult) (nv : NlpValidation) (n : Int) (kc' : KycCase),
      upload_document u kc dt fn q cb nv n = .ok kc' → kc'.status = kc.status) := by
  have hsub : ∀ (u : CurrentUser) (kc : KycCase) (c : Option String) (r n : Int) (kc' : KycCase),
      submit_case u kc c r n = .ok kc' →
      ∃ mid, submit_case_update u kc c n = .ok mid ∧ mid.status = .SUBMITTED ∧
        kc' = run_ai_review mid r n ∧ kc'.status = .AI_REVIEWED := by
    intro u kc c r n kc' h
    unfold submit_case at h
    split at h
    · cases h
    · rename_i mid hmid
      rw [Except.ok.injEq] at h
      obtain ⟨_, _, _, hrec⟩ := submit_case_update_ok_elim hmid
      refine ⟨mid, hmid, by rw [hrec], h.symm, ?_⟩
      rw [← h]
      unfold run_ai_review
      rfl
  refine ⟨?_, ?_, hsub, ?_, ?_, ?_, ?_, ?_, ?_⟩
  · intro u kc c r n kc' h
    obtain ⟨mid, hmid, _⟩ := hsub u kc c r n kc' h
    exact (submit_case_update_ok_elim hmid).2.2.1
  · intro u kc c r n hrole hcre hst
    unfold submit_case submit_case_update
    simp [hrole, hcre, hst]
  · intro u kc c n kc' h
    obtain ⟨_, _, hst, hrec⟩ := approve_case_ok_elim h
    exact ⟨hst, by rw [hrec]⟩
  · intro u kc c n hrole hcre hs ha
    unfold approve_case
    simp [hrole, Ne.symm hcre, hs, ha]
    tauto
  · intro u kc c n kc' h
    obtain ⟨_, _, hst, hrec⟩ := reject_case_ok_elim h
    exact ⟨hst, by rw [hrec]⟩
  · intro u kc c n hrole hcre hs ha
    unfold reject_case
    simp [hrole, Ne.symm hcre, hs, ha]
    tauto
  · intro u kc c r n kc' hterm
    refine ⟨fun h => ?_, fun h => ?_, fun h => ?_⟩
    · obtain ⟨mid, hmid, _⟩ := hsub u kc c r n kc' h
      have := (submit_case_update_ok_elim hmid).2.2.1
      rcases hterm with h' | h' <;> rw [h'] at this <;> cases this
    · have := (approve_case_ok_elim h).2.2.1
      rcases hterm with h' | h' <;> rcases this with h'' | h'' <;>
        rw [h'] at h'' <;> cases h''
    · have := (reject_case_ok_elim h).2.2.1
      rcases hterm with h' | h' <;> rcases this with h'' | h'' <;>
        rw [h'] at h'' <;> cases h''
  · intro u kc dt fn q cb nv n kc' h
    exact (upload_document_ok_elim h).2.2.2.1

/-- Witness for C3: the hypotheses of its conjuncts hold at concrete
inputs — an authorized submit of a SUBMITTED case and an authorized
approve of a DRAFT case produce the stated invalid-state errors, and a
concrete submit of a DRAFT case succeeds into AI_REVIEWED. -/
theorem c3_state_machine_witness :
    submit_case makerUser (sampleCase .SUBMITTED) none 70 5 =
      .error (.badRequest "Can only submit DRAFT cases") ∧
    approve_case checkerUser (sampleCase .DRAFT) none 5 =
      .error (.badRequest "Cannot approve case in DRAFT status") ∧
    reject_case checkerUser (sampleCase .CHECKER_APPROVED) none 5 =
      .error (.badRequest "Cannot reject case in CHECKER_APPROVED status") ∧
    exceptStatus (submit_case makerUser (sampleCase .DRAFT) none 70 5) = some .AI_REVIEWED ∧
    exceptStatus (submit_case_update makerUser (sampleCase .DRAFT) none 5) = some .SUBMITTED := by
  refine ⟨?_, ?_, ?_, ?_, ?_⟩
  · exact c3_state_machine.2.1 makerUser (sampleCase .SUBMITTED) none 70 5
      (by decide) (by decide) (by decide)
  · have h := c3_state_machine.2.2.2.2.1 checkerUser (sampleCase .DRAFT) none 5
      (by decide) (by decide) (by decide) (by decide)
    simpa using h
  · have h := c3_state_machine.2.2.2.2.2.2.1 checkerUser (sampleCase .CHECKER_APPROVED) none 5
      (by decide) (by decide) (by decide) (by decide)
    simpa using h
  · obtain ⟨mid, h1, h2, h3, h4⟩ :=
      c3_state_machine.2.2.1 makerUser (sampleCase .DRAFT) none 70 5
        (run_ai_review
          { sampleCase .DRAFT with
            status := .SUBMITTED
            updated_at := 5
            audit_trail := (sampleCase .DRAFT).audit_trail ++
              [AuditEntry.mk 5 .SUBMITTED "Maya" "MAKER" "Case submitted for review"] } 70 5)
        (by rfl)
    unfold exceptStatus
    rw [show submit_case makerUser (sampleCase .DRAFT) none 70 5 =
      .ok (run_ai_review mid 70 5) from by rw [← h3]; rfl]
    have hst : (run_ai_review mid 70 5).status = CaseStatus.AI_REVIEWED := by
      rw [← h3]
      exact h4
    simpa using hst
  · obtain ⟨mid, h1, h2, _, _⟩ :=
      c3_state_machine.2.2.1 makerUser (sampleCase .DRAFT) none 70 5
        (run_ai_review
          { sampleCase .DRAFT with
            status := .SUBMITTED
            updated_at := 5
            audit_trail := (sampleCase .DRAFT).audit_trail ++
              [AuditEntry.mk 5 .SUBMITTED "Maya" "MAKER" "Case submitted for review"] } 70 5)
        (by rfl)
    unfold exceptStatus
    rw [h1]
    simpa using h2

/-- Length of the audit trail carried by a successful endpoint result. -/
def auditLen (e : Except ApiError KycCase) : Option Nat :=
  match e with
  | .ok k => some k.audit_trail.length
  | .error _ => none

/-- C8.  The audit trail is append-only and grows by exactly one entry
per successful operation: each of the submit write, the automated AI
review, approve, reject, and document upload pushes exactly one audit
entry onto the end of the existing trail (so the prior trail is a prefix
of the new one, the length increases by exactly one, and the trail order
is the chronological order of the operations). -/
theorem c8_audit_trail_append :
    (∀ (u : CurrentUser) (kc : KycCase) (c : Option String) (n : Int) (kc' : KycCase),
      submit_case_update u kc c n = .ok kc' →
      ∃ e, kc'.audit_trail = kc.audit_trail ++ [e] ∧
        kc'.audit_trail.length = kc.audit_trail.length + 1) ∧
    (∀ (kc : KycCase) (r n : Int),
      ∃ e, (run_ai_review kc r n).audit_trail = kc.audit_trail ++ [e] ∧
        (run_ai_review kc r n).audit_trail.length = kc.audit_trail.length + 1) ∧
    (∀ (u : CurrentUser) (kc : KycCase) (c : Option String) (n : Int) (kc' : KycCase),
      approve_case u kc c n = .ok kc' →
      ∃ e, kc'.audit_trail = kc.audit_trail ++ [e] ∧
        kc'.audit_trail.length = kc.audit_trail.length + 1) ∧
    (∀ (u : CurrentUser) (kc : KycCase) (c : Option String) (n : Int) (kc' : KycCase),
      reject_case u kc c n = .ok kc' →
      ∃ e, kc'.audit_trail = kc.audit_trail ++ [e] ∧
        kc'.audit_trail.length = kc.audit_trail.length + 1) ∧
    (∀ (u : CurrentUser) (kc : KycCase) (dt fn : String) (q : QualityOut)
        (cb : CombinedResult) (nv : NlpValidation) (n : Int) (kc' : KycCase),
      upload_document u kc dt fn q cb nv n = .ok kc' →
      ∃ e, kc'.audit_trail = kc.audit_trail ++ [e] ∧
        kc'.audit_trail.length = kc.audit_trail.length + 1) := by
  refine ⟨?_, ?_, ?_, ?_, ?_⟩
  · intro u kc c n kc' h
    obtain ⟨_, _, _, hrec⟩ := submit_case_update_ok_elim h
    refine ⟨_, by rw [hrec], ?_⟩
    rw [hrec]
    simp
  · intro kc r n
    refine ⟨_, rfl, ?_⟩
    unfold run_ai_review
    simp
  · intro u kc c n kc' h
    obtain ⟨_, _, _, hrec⟩ := approve_case_ok_elim h
    refine ⟨_, by rw [hrec], ?_⟩
    rw [hrec]
    simp
  · intro u kc c n kc' h
    obtain ⟨_, _, _, hrec⟩ := reject_case_ok_elim h
    refine ⟨_, by rw [hrec], ?_⟩
    rw [hrec]
    simp
  · intro u kc dt fn q cb nv n kc' h
    obtain ⟨_, _, _, _, r, _, htrail⟩ := upload_document_ok_elim h
    refine ⟨_, htrail, ?_⟩
    rw [htrail]
    simp

/-- Concrete result of a successful submit write, for the C8 witness. -/
def c8SubmitRes : KycCase :=
  ((submit_case_update makerUser (sampleCase .DRAFT) none 5).toOption).getD (sampleCase .DRAFT)

/-- Concrete result of a successful approve, for the C8 witness. -/
def c8ApproveRes : KycCase :=
  ((approve_case checkerUser (sampleCase .AI_REVIEWED) none 5).toOption).getD (sampleCase .AI_REVIEWED)

/-- Concrete result of a successful reject, for the C8 witness. -/
def c8RejectRes : KycCase :=
  ((reject_case checkerUser (sampleCase .SUBMITTED) none 5).toOption).getD (sampleCase .SUBMITTED)

/-- Concrete result of a successful upload, for the C8 witness. -/
def c8UploadRes : KycCase :=
  ((upload_document makerUser (sampleCase .DRAFT) "pan" "pan.png" sampleQuality
    sampleCombined sampleNlpVal 5).toOption).getD (sampleCase .DRAFT)

/-- Witness for C8: on concrete successful calls each operation leaves a
trail one entry longer than the one-entry creation trail. -/
theorem c8_audit_trail_append_witness :
    c8SubmitRes.audit_trail.length = 2 ∧
    (run_ai_review (sampleCase .SUBMITTED) 70 5).audit_trail.length = 2 ∧
    c8ApproveRes.audit_trail.length = 2 ∧
    c8RejectRes.audit_trail.length = 2 ∧
    c8UploadRes.audit_trail.length = 2 := by
  obtain ⟨hsub, hai, happ, hrej, hup⟩ := c8_audit_trail_append
  refine ⟨?_, ?_, ?_, ?_, ?_⟩
  · obtain ⟨e, _, hlen⟩ := hsub makerUser (sampleCase .DRAFT) none 5 c8SubmitRes rfl
    rw [hlen]
    rfl
  · obtain ⟨e, _, hlen⟩ := hai (sampleCase .SUBMITTED) 70 5
    rw [hlen]
    rfl
  · obtain ⟨e, _, hlen⟩ := happ checkerUser (sampleCase .AI_REVIEWED) none 5 c8ApproveRes rfl
    rw [hlen]
    rfl
  · obtain ⟨e, _, hlen⟩ := hrej checkerUser (sampleCase .SUBMITTED) none 5 c8RejectRes rfl
    rw [hlen]
    rfl
  · obtain ⟨e, _, hlen⟩ := hup makerUser (sampleCase .DRAFT) "pan" "pan.png" sampleQuality
      sampleCombined sampleNlpVal 5 c8UploadRes rfl
    rw [hlen]
    rfl

/-- Fallback report used when destructuring a scorer result that is
known to be successful. -/
def fallbackReport : ValidationReport :=
  buildReport (FormData.mk none none none none none) [] 0
    (ConsistencyResult.mk 100 [] [])

/-- The report carried by a successful scorer result. -/
def reportOf (e : Except PyErr ValidationReport) : ValidationReport :=
  match e with
  | .ok r => r
  | .error _ => fallbackReport

/-- Elimination of a successful scoring run: the consistency check
completed and the report is assembled from its result. -/
theorem validate_and_score_ok_elim {fd : FormData} {ocr : List (String × DocData)}
    {nowDays : Int} {r : ValidationReport}
    (h : validate_and_score fd ocr nowDays = .ok r) :
    ∃ cr, checkConsistency fd ocr nowDays = .ok cr ∧
      r = buildReport fd ocr nowDays cr := by
  unfold validate_and_score at h
  split at h
  · cases h
  · rename_i cr hcr
    rw [Except.ok.injEq] at h
    exact ⟨cr, hcr, h.symm⟩

/-- Concrete scorer inputs used by several witnesses. -/
def wFd : FormData :=
  FormData.mk (some "John Doe") (some "1990-06-15")
    (some "123 Main Street, Mumbai, Maharashtra, 400001") none none

/-- Evaluation date of the witness runs. -/
def wDay : Int := daysFromCivil 2026 10 12

/-- The report of the witness run (no documents, so the run completes). -/
def sampleReport : ValidationReport := reportOf (validate_and_score wFd [] wDay)

/-- C9 counterexample.  A document upload by the case creator on a case
already in the terminal status CHECKER_APPROVED succeeds — the endpoint
has no case-status guard — refuting the claim that such an upload fails. -/
theorem c9_upload_terminal_counterexample :
    exceptIsOk (upload_document makerUser (sampleCase .CHECKER_APPROVED) "pan" "pan.png"
      sampleQuality sampleCombined sampleNlpVal 5) = true ∧
    (sampleCase .CHECKER_APPROVED).status = .CHECKER_APPROVED := by
  exact ⟨rfl, rfl⟩

/-- C9 as amended.  A document upload by the case creator with a
supported document type and a passing quality check is handled without
any case-status guard: whenever the inline re-scoring completes it is
accepted — including on the terminal statuses CHECKER_APPROVED and
CHECKER_REJECTED — and a successful upload never changes the case
status; when the re-scoring instead raises (the `None`-name
`AttributeError` of the consistency check), the endpoint fails with the
generic HTTP 500 error and the case is not modified, again regardless of
status. -/
theorem c9_upload_ignores_status (u : CurrentUser) (kc : KycCase)
    (dt fn : String) (q : QualityOut) (cb : CombinedResult) (nv : NlpValidation)
    (n : Int) (hcre : kc.created_by = u.id)
    (hdt : dt = "pan" ∨ dt = "aadhaar" ∨ dt = "passport")
    (hq : q.valid = true) :
    (∀ r, validate_and_score (uploadFormData kc) (uploadOcr kc dt q cb) n = .ok r →
      exceptIsOk (upload_document u kc dt fn q cb nv n) = true ∧
      exceptStatus (upload_document u kc dt fn q cb nv n) = some kc.status) ∧
    (∀ msg, validate_and_score (uploadFormData kc) (uploadOcr kc dt q cb) n =
        .error (.attributeError msg) →
      upload_document u kc dt fn q cb nv n =
        .error (.internalError ("Error processing document: " ++ msg))) := by
  have hdt' : ¬ (dt ≠ "pan" && dt ≠ "aadhaar" && dt ≠ "passport") = true := by
    rcases hdt with h | h | h <;> simp [h]
  constructor
  · intro r hr
    unfold upload_document
    rw [if_neg (by simp [hcre]), if_neg hdt', if_neg (by simp [hq]), hr]
    exact ⟨rfl, rfl⟩
  · intro msg hmsg
    unfold upload_document
    rw [if_neg (by simp [hcre]), if_neg hdt', if_neg (by simp [hq]), hmsg]

/-- The report of the witness upload's re-scoring (one document with
proper string names, so the run completes). -/
def c9WitnessReport : ValidationReport :=
  reportOf (validate_and_score (uploadFormData (sampleCase .CHECKER_REJECTED))
    (uploadOcr (sampleCase .CHECKER_REJECTED) "aadhaar" sampleQuality sampleCombined) 7)

/-- OCR results whose first stored extracted name is `None`, as the
upload path stores them after a failed name extraction. -/
def crashOcr : List (String × DocData) :=
  [("pan", DocData.mk (some "raw") (some [("name", none), ("pan", some "ABCDE1234F")])
      (some (9/10)) none),
   ("aadhaar", DocData.mk (some "raw2") (some [("name", some "JOHN DOE")])
      (some (9/10)) none)]

/-- A case that already carries `crashOcr`, so that any further upload
re-scores over a `None` name and the endpoint fails with HTTP 500. -/
def crashCase : KycCase :=
  { sampleCase .DRAFT with ocr_results := crashOcr }

/-- Witness for C9's amended theorem: a concrete rejected-status upload
succeeds without changing the status, and a concrete upload re-scoring
over a stored `None` name fails with the HTTP 500 error. -/
theorem c9_upload_ignores_status_witness :
    (exceptIsOk (upload_document makerUser (sampleCase .CHECKER_REJECTED) "aadhaar" "a.png"
      sampleQuality sampleCombined sampleNlpVal 7) = true ∧
    exceptStatus (upload_document makerUser (sampleCase .CHECKER_REJECTED) "aadhaar" "a.png"
      sampleQuality sampleCombined sampleNlpVal 7) = some .CHECKER_REJECTED) ∧
    upload_document makerUser crashCase "passport" "p.png"
      sampleQuality (CombinedResult.mk "raw3" [("name", none)] (9/10)) sampleNlpVal 7 =
      .error (.internalError
        "Error processing document: 'NoneType' object has no attribute 'lower'") := by
  constructor
  · exact (c9_upload_ignores_status makerUser (sampleCase .CHECKER_REJECTED) "aadhaar" "a.png"
      sampleQuality sampleCombined sampleNlpVal 7 (by decide) (by tauto) (by decide)).1
        c9WitnessReport rfl
  · exact (c9_upload_ignores_status makerUser crashCase "passport" "p.png"
      sampleQuality (CombinedResult.mk "raw3" [("name", none)] (9/10)) sampleNlpVal 7
      (by decide) (by tauto) (by decide)).2
        "'NoneType' object has no attribute 'lower'" rfl

/-- Characterization of `_is_validation_passed` returning `False`. -/
theorem isValidationPassed_eq_false_iff (rs : Int) (rl : RiskLevel)
    (ans : List Anomaly) (cs : Int) :
    isValidationPassed rs rl ans cs = false ↔
      (3 < (ans.filter (fun a => a.severity = "high")).length ∨
       rl = .HIGH ∨ rl = .VERY_HIGH ∨ 70 < rs ∨ cs < 80) := by
  unfold isValidationPassed
  split
  · simp_all
  · split
    · rename_i hlev
      simp only [Bool.or_eq_true, decide_eq_true_eq] at hlev
      simp_all
      tauto
    · rename_i hlev
      simp only [Bool.or_eq_true, decide_eq_true_eq, not_or] at hlev
      split
      · simp_all
      · split
        · simp_all
        · simp_all

/-- C5.  For every validation report produced by `validate_and_score`,
`is_valid` is false exactly when the count of high-severity anomalies
exceeds 3, or the risk level is HIGH or VERY_HIGH, or the risk score
exceeds 70, or the completeness sub-score is below 80; otherwise it is
true. -/
theorem c5_is_valid_iff (fd : FormData) (ocr : List (String × DocData))
    (nowDays : Int) (r : ValidationReport)
    (hok : validate_and_score fd ocr nowDays = .ok r) :
    r.is_valid = false ↔
      (3 < (r.anomalies.filter (fun a => a.severity = "high")).length ∨
       r.risk_level = .HIGH ∨ r.risk_level = .VERY_HIGH ∨
       70 < r.risk_score ∨ r.completeness.score < 80) := by
  obtain ⟨cr, hcr, rfl⟩ := validate_and_score_ok_elim hok
  exact isValidationPassed_eq_false_iff _ _ _ _

/-- Witness for C5 at the concrete witness run. -/
theorem c5_is_valid_iff_witness :
    sampleReport.is_valid = false ↔
      (3 < (sampleReport.anomalies.filter (fun a => a.severity = "high")).length ∨
       sampleReport.risk_level = .HIGH ∨ sampleReport.risk_level = .VERY_HIGH ∨
       70 < sampleReport.risk_score ∨ sampleReport.completeness.score < 80) :=
  c5_is_valid_iff wFd [] wDay sampleReport rfl

/-- Evaluation rule for `pyTrunc` at an integral rational. -/
theorem pyTrunc_eq_of_eq_intCast {q : ℚ} {z : Int} (h : q = (z : ℚ)) : pyTrunc q = z := by
  subst h
  unfold pyTrunc
  rw [Rat.intCast_num, Rat.intCast_den]
  exact Int.tdiv_one z

/-- A misconfigured weight table: every default weight doubled, so the
entries sum to 2.0 instead of 1.0. -/
def c4BadWeights : List (String × ℚ) :=
  defaultWeights.map (fun p => (p.1, 2 * p.2))

/-- A sub-score breakdown on which the skew is visible. -/
def c4Breakdown : Breakdown :=
  Breakdown.mk 70 70 70 70 70 70

/-- C4 counterexample.  The scoring engine performs no weight-table
validation: a table summing to 2.0 is consumed by
`_calculate_risk_score` without any error and silently yields a skewed
score (60 instead of 30), refuting the claim that a misconfigured table
is rejected at startup and never silently skews scores. -/
theorem c4_no_validation_counterexample :
    (c4BadWeights.map Prod.snd).sum = 2 ∧
    calculateRiskScore c4BadWeights c4Breakdown = 60 ∧
    calculateRiskScore defaultWeights c4Breakdown = 30 ∧
    calculateRiskScore c4BadWeights c4Breakdown ≠
      calculateRiskScore defaultWeights c4Breakdown := by
  have hbad : calculateRiskScore c4BadWeights c4Breakdown = 60 := by
    unfold calculateRiskScore
    apply pyTrunc_eq_of_eq_intCast
    norm_num [c4BadWeights, defaultWeights, c4Breakdown, breakdownGet]
  have hdef : calculateRiskScore defaultWeights c4Breakdown = 30 := by
    unfold calculateRiskScore
    apply pyTrunc_eq_of_eq_intCast
    norm_num [defaultWeights, c4Breakdown, breakdownGet]
  refine ⟨?_, hbad, hdef, ?_⟩
  · norm_num [c4BadWeights, defaultWeights]
  · rw [hbad, hdef]
    norm_num

/-- C4 as amended.  `__init__` installs a fixed weight table that sums to
exactly 1.0 and performs no validation; `_calculate_risk_score` applies
whatever weight table the instance carries and always returns an
ordinary integer score (there is no rejection path), so a misconfigured
table would silently skew scores — at the concrete breakdown above the
doubled table silently doubles the score. -/
theorem c4_weights_unvalidated :
    (defaultWeights.map Prod.snd).sum = 1 ∧
    (∀ (ws : List (String × ℚ)) (b : Breakdown), ∃ z : Int, calculateRiskScore ws b = z) ∧
    calculateRiskScore c4BadWeights c4Breakdown =
      2 * calculateRiskScore defaultWeights c4Breakdown := by
  have hbad : calculateRiskScore c4BadWeights c4Breakdown = 60 := by
    unfold calculateRiskScore
    apply pyTrunc_eq_of_eq_intCast
    norm_num [c4BadWeights, defaultWeights, c4Breakdown, breakdownGet]
  have hdef : calculateRiskScore defaultWeights c4Breakdown = 30 := by
    unfold calculateRiskScore
    apply pyTrunc_eq_of_eq_intCast
    norm_num [defaultWeights, c4Breakdown, breakdownGet]
  refine ⟨?_, fun ws b => ⟨calculateRiskScore ws b, rfl⟩, ?_⟩
  · norm_num [defaultWeights]
  · rw [hbad, hdef]
    norm_num

/-- Form data whose declared date of birth is 2000-01-01, used to exhibit
the scorer's dependence on the evaluation date. -/
def c1Fd : FormData :=
  FormData.mk (some "John Doe") (some "2000-01-01")
    (some "123 Main Street, Mumbai, Maharashtra, 400001") none none

/-- An evaluation date at which the declared person is 17. -/
def c1T1 : Int := daysFromCivil 2017 6 1

/-- An evaluation date at which the declared person is 30. -/
def c1T2 : Int := daysFromCivil 2030 6 1

/-- C1 counterexample.  `validate_and_score` reads the current clock
through `datetime.now()` in `_validate_age`: with identical `form_data`
and `ocr_results`, evaluating at a date where the declared person is 17
produces a report with an extra high-severity AGE_INCONSISTENCY anomaly
compared to evaluating at a date where the person is 30, so the result is
not a function of the two documented inputs alone. -/
theorem c1_hidden_clock_counterexample :
    validate_and_score c1Fd [] c1T1 ≠ validate_and_score c1Fd [] c1T2 := by
  intro h
  have hlen := congrArg (fun e => (reportOf e).anomalies.length) h
  exact absurd hlen (by decide)

/-- C1 as amended.  `validate_and_score` is pure and deterministic with
respect to `(form_data, ocr_results, evaluation date)`: two calls with
identical form data, identical OCR results and an identical current date
return identical reports; the current date is the only input beyond the
two documented ones. -/
theorem c1_deterministic_given_clock (fd1 fd2 : FormData)
    (ocr1 ocr2 : List (String × DocData)) (t1 t2 : Int)
    (hf : fd1 = fd2) (ho : ocr1 = ocr2) (ht : t1 = t2) :
    validate_and_score fd1 ocr1 t1 = validate_and_score fd2 ocr2 t2 := by
  subst hf
  subst ho
  subst ht
  rfl

/-- Witness for C1's amended theorem at concrete inputs. -/
theorem c1_deterministic_given_clock_witness :
    validate_and_score c1Fd [] c1T2 = validate_and_score c1Fd [] c1T2 :=
  c1_deterministic_given_clock c1Fd c1Fd [] [] c1T2 c1T2 rfl rfl rfl

/-- Filtering anomalies produced by a constant-type generator yields
nothing when the predicate rejects the generated type. -/
theorem filter_map_anoms_nil {α : Type} (l : List α) (g : α → Anomaly)
    (p : Anomaly → Bool) (h : ∀ x, p (g x) = false) :
    (l.map g).filter p = [] := by
  induction l with
  | nil => rfl
  | cons a t ih => simp [List.filter_cons, h a, ih]

/-- Filtering the output of a `filterMap` yields nothing when the
predicate rejects every produced element. -/
theorem filter_filterMap_nil {α β : Type} (l : List α) (f : α → Option β)
    (p : β → Bool) (h : ∀ x y, f x = some y → p y = false) :
    (l.filterMap f).filter p = [] := by
  induction l with
  | nil => rfl
  | cons a t ih =>
    rw [List.filterMap_cons]
    cases hfa : f a with
    | none => exact ih
    | some y => simp [List.filter_cons, h a y hfa, ih]

/-- On an unparsable, non-empty date of birth, anomaly detection emits
exactly the one high-severity AGE_INCONSISTENCY anomaly. -/
theorem detectAnomalies_invalid_dob (fd : FormData) (ocr : List (String × DocData))
    (cm : CompletenessResult) (dm : DataMatchResult) (fv : FormatResult)
    (q : QualityResult) (t : Int) (s : String)
    (hdob : fd.dob = some s) (hne : s ≠ "") (hparse : parseDateYMD s = none) :
    (detectAnomalies fd ocr cm dm fv q t).filter
        (fun a => a.type = .AGE_INCONSISTENCY) =
      [Anomaly.mk .AGE_INCONSISTENCY "dob" "high" "Invalid date format" none] := by
  unfold detectAnomalies
  simp only [List.filter_append]
  rw [filter_map_anoms_nil _ _ _ (fun x => by simp),
      filter_map_anoms_nil _ _ _ (fun x => by simp),
      filter_map_anoms_nil _ _ _ (fun x => by simp),
      filter_map_anoms_nil _ _ _ (fun x => by simp)]
  have hage : (match fd.dob with
      | some dob =>
        if dob ≠ "" then
          let ac := validateAge dob t
          if ac.valid then []
          else [Anomaly.mk .AGE_INCONSISTENCY "dob" "high" (ac.reason.getD "") none]
        else []
      | none => []) =
      [Anomaly.mk .AGE_INCONSISTENCY "dob" "high" "Invalid date format" none] := by
    rw [hdob]
    simp only [hne, if_true, ne_eq, not_false_eq_true]
    unfold validateAge
    rw [hparse]
    rfl
  rw [hage]
  have hsusp : (detectSuspiciousPatterns fd ocr).filter
      (fun a => a.type = .AGE_INCONSISTENCY) = [] := by
    unfold detectSuspiciousPatterns
    dsimp only
    simp only [List.filter_append]
    rw [filter_filterMap_nil _ _ _ (fun x y hy => by
      by_cases hc : testKeywords.any (fun kw => strContains (lowerData x.2) kw.data)
      · simp only [hc, if_true] at hy
        rw [Option.some.injEq] at hy
        subst hy
        rfl
      · simp [hc] at hy), List.append_nil]
    by_cases hn : (decide ((fd.customer_name).getD "" ≠ "") &&
        hasRepeatedPattern ((fd.customer_name).getD "")) = true
    · rw [if_pos hn, List.filter_cons]
      simp
    · rw [if_neg hn]
      rfl
  rw [hsusp]
  simp [List.filter_cons]

/-- On an unparsable, non-empty date of birth, every completed
consistency check records the age inconsistency with the issue text of
the caught exception branch. -/
theorem checkConsistency_invalid_dob (fd : FormData) (ocr : List (String × DocData))
    (t : Int) (s : String) (cr : ConsistencyResult)
    (hdob : fd.dob = some s) (hne : s ≠ "") (hparse : parseDateYMD s = none)
    (hok : checkConsistency fd ocr t = .ok cr) :
    Inconsistency.mk "age" "Invalid date format" ∈ cr.inconsistencies := by
  have hage : ageConsistency fd t = ([], [Inconsistency.mk "age" "Invalid date format"]) := by
    unfold ageConsistency
    rw [hdob]
    dsimp only
    rw [if_pos hne]
    unfold validateAge
    rw [hparse]
    rfl
  unfold checkConsistency at hok
  split at hok
  · cases hok
  · rw [Except.ok.injEq] at hok
    rw [← hok, hage]
    simp

/-- C10 as amended.  For every input whose declared date of birth is a
non-empty string not parseable as `YYYY-MM-DD` and whose scoring run
completes (the run can instead raise the consistency check's
`AttributeError` when two or more stored documents carry a `None`
extracted name — see the counterexample), the failed parse is recorded
as exactly one high-severity AGE_INCONSISTENCY anomaly with description
`Invalid date format`, and the consistency sub-result carries the same
age inconsistency.  (A declared date of birth equal to the empty string
is skipped entirely by the `if dob:` guard — see the counterexample.) -/
theorem c10_invalid_dob_format (fd : FormData) (ocr : List (String × DocData))
    (nowDays : Int) (s : String) (r : ValidationReport)
    (hdob : fd.dob = some s) (hne : s ≠ "") (hparse : parseDateYMD s = none)
    (hok : validate_and_score fd ocr nowDays = .ok r) :
    r.anomalies.filter (fun a => a.type = .AGE_INCONSISTENCY) =
      [Anomaly.mk .AGE_INCONSISTENCY "dob" "high" "Invalid date format" none] ∧
    Inconsistency.mk "age" "Invalid date format" ∈ r.consistency.inconsistencies := by
  obtain ⟨cr, hcr, rfl⟩ := validate_and_score_ok_elim hok
  exact ⟨detectAnomalies_invalid_dob fd ocr _ _ _ _ nowDays s hdob hne hparse,
    checkConsistency_invalid_dob fd ocr nowDays s cr hdob hne hparse hcr⟩

/-- Form data with a concrete unparsable date of birth, for the C10
witness. -/
def c10WFd : FormData :=
  FormData.mk (some "John Doe") (some "not-a-date")
    (some "123 Main Street, Mumbai, Maharashtra, 400001") none none

/-- The report of the C10 witness run (no documents, so it completes). -/
def c10WReport : ValidationReport := reportOf (validate_and_score c10WFd [] 0)

/-- Witness for C10's amended theorem: a concrete unparsable date of
birth on a completing run. -/
theorem c10_invalid_dob_format_witness :
    c10WReport.anomalies.filter (fun a => a.type = .AGE_INCONSISTENCY) =
      [Anomaly.mk .AGE_INCONSISTENCY "dob" "high" "Invalid date format" none] ∧
    Inconsistency.mk "age" "Invalid date format" ∈ c10WReport.consistency.inconsistencies :=
  c10_invalid_dob_format c10WFd [] 0 "not-a-date" c10WReport rfl (by decide) (by decide) rfl

/-- Form data whose declared date of birth is the empty string. -/
def c10EmptyFd : FormData :=
  FormData.mk (some "John Doe") (some "")
    (some "123 Main Street, Mumbai, Maharashtra, 400001") none none

/-- C10 counterexample.  Two inputs refute the claim as stated: the
empty string is not parseable as `YYYY-MM-DD`, yet its scoring run
completes with no AGE_INCONSISTENCY anomaly and no age inconsistency at
all (the falsy value skips the age check); and a non-empty unparsable
date of birth combined with two stored documents one of whose extracted
names is `None` does not complete at all — the run raises the
consistency check's `AttributeError` and produces no report. -/
theorem c10_dob_counterexample :
    (parseDateYMD "" = none ∧
      validate_and_score c10EmptyFd [] 0 =
        .ok (reportOf (validate_and_score c10EmptyFd [] 0)) ∧
      (reportOf (validate_and_score c10EmptyFd [] 0)).anomalies.filter
        (fun a => a.type = .AGE_INCONSISTENCY) = [] ∧
      (reportOf (validate_and_score c10EmptyFd [] 0)).consistency.inconsistencies = []) ∧
    (parseDateYMD "not-a-date" = none ∧
      validate_and_score c10WFd crashOcr 0 =
        .error (.attributeError "'NoneType' object has no attribute 'lower'")) := by
  refine ⟨⟨rfl, rfl, by decide, by decide⟩, ⟨rfl, rfl⟩⟩

/-- Modelled from the spec: the consistency sub-score the specification
describes, in which the applicable checks are the age check (date of
birth present), the cross-document name check (names from two or more
documents, pairwise similarity at least 0.7), and the address length
check (declared address present, at least 20 characters), and *every*
passing applicable check counts as one consistent check while every
failing one counts as one inconsistency; score =
consistent / total × 100, or 100 when no check is applicable.  The
spec speaks of document *names*, so only actual strings count as
collected names here (a stored `None` is not a name). -/
def consistencySpecScore (fd : FormData) (ocr : List (String × DocData))
    (nowDays : Int) : Int :=
  let ageCheck : Nat × Nat :=
    match fd.dob with
    | some dob =>
      if dob ≠ "" then
        (if (validateAge dob nowDays).valid then (1, 0) else (0, 1))
      else (0, 0)
    | none => (0, 0)
  let names := (docNames ocr).reduceOption
  let nameCheck : Nat × Nat :=
    if 2 ≤ names.length then
      (if names.Pairwise (fun x y => calculate_similarity x y ≥ 7/10) then (1, 0) else (0, 1))
    else (0, 0)
  let addrCheck : Nat × Nat :=
    match fd.address with
    | some a =>
      if a ≠ "" then (if 20 ≤ a.length then (1, 0) else (0, 1)) else (0, 0)
    | none => (0, 0)
  let consistent := ageCheck.1 + nameCheck.1 + addrCheck.1
  let total := consistent + (ageCheck.2 + nameCheck.2 + addrCheck.2)
  if 0 < total then pyTrunc (((consistent : ℚ) / (total : ℚ)) * 100) else 100

/-- Form data with an unparsable date of birth and a 44-character
address, on which the code's score and the specified score diverge. -/
def c7Fd : FormData :=
  FormData.mk (some "John Doe") (some "not-a-date")
    (some "123 Main Street, Mumbai, Maharashtra, 400001") none none

/-- The consistency result of the run on `c7Fd` with no documents (the
name loop never runs, so the check completes). -/
def c7Res : ConsistencyResult :=
  match checkConsistency c7Fd [] 0 with
  | .ok cr => cr
  | .error _ => ConsistencyResult.mk 100 [] []

/-- C7 counterexample.  On `c7Fd` the consistency check completes; the
age check fails and the address check passes, so the specified score is
1/2 × 100 = 50, but the code counts nothing for the passing address
check (only a passing age check is ever appended to
`consistent_fields`), so it computes 0/1 × 100 = 0 — refuting the
claimed formula. -/
theorem c7_consistency_counterexample :
    checkConsistency c7Fd [] 0 = .ok c7Res ∧
    c7Res.score = 0 ∧
    consistencySpecScore c7Fd [] 0 = 50 ∧
    c7Res.score ≠ consistencySpecScore c7Fd [] 0 := by
  have hcode : c7Res.score =
      pyTrunc ((((0 : Nat) : ℚ) / ((1 : Nat) : ℚ)) * 100) := rfl
  have hspec : consistencySpecScore c7Fd [] 0 =
      pyTrunc ((((1 : Nat) : ℚ) / ((2 : Nat) : ℚ)) * 100) := rfl
  have hc0 : c7Res.score = 0 := by
    rw [hcode]
    apply pyTrunc_eq_of_eq_intCast
    push_cast
    norm_num
  have hs50 : consistencySpecScore c7Fd [] 0 = 50 := by
    rw [hspec]
    apply pyTrunc_eq_of_eq_intCast
    push_cast
    norm_num
  refine ⟨rfl, hc0, hs50, ?_⟩
  rw [hc0, hs50]
  norm_num

/-- Whether a collected document name fails the similarity comparison
against the base name (a `None` name never reaches the comparison of a
completing run). -/
def nameMismatch (b : String) (n : Option String) : Bool :=
  match n with
  | some s => decide (calculate_similarity b s < 7/10)
  | none => false

/-- The number of name inconsistencies of a *completing* run: later
document names whose similarity to the first collected name is below
0.7, counted only when the first name is an actual string. -/
def nameMismatchCount (ocr : List (String × DocData)) : Nat :=
  match docNames ocr with
  | some b :: rest => (rest.filter (nameMismatch b)).length
  | _ => 0

/-- The number of consistent checks the code actually counts: one when a
present date of birth passes the age check, and nothing else — passing
name and address checks contribute nothing. -/
def consistentCount (fd : FormData) (nowDays : Int) : Nat :=
  if truthy fd.dob ∧ (validateAge ((fd.dob).getD "") nowDays).valid then 1 else 0

/-- The number of inconsistencies the code records: one for a present but
failing age check, one for each second-or-later document name whose
similarity to the *first* document name is below 0.7 (not a full
pairwise comparison), and one for a present address shorter than 20
characters. -/
def inconsistencyCount (fd : FormData) (ocr : List (String × DocData))
    (nowDays : Int) : Nat :=
  (if truthy fd.dob ∧ ¬ (validateAge ((fd.dob).getD "") nowDays).valid then 1 else 0) +
  nameMismatchCount ocr +
  (if truthy fd.address ∧ ((fd.address).getD "").length < 20 then 1 else 0)


/-- `consistent_fields` contains exactly one entry when a present date of
birth passes the age check, and is empty otherwise. -/
theorem ageConsistency_fst_len (fd : FormData) (t : Int) :
    (ageConsistency fd t).1.length = consistentCount fd t := by
  unfold ageConsistency consistentCount truthy
  cases hdob : fd.dob with
  | none => simp
  | some s =>
    by_cases hs : s = ""
    · subst hs
      simp
    · by_cases hv : (validateAge s t).valid
      · simp [hs, hv]
      · simp [hs, hv]

/-- The age step records exactly one inconsistency when a present date of
birth fails the age check. -/
theorem ageConsistency_snd_len (fd : FormData) (t : Int) :
    (ageConsistency fd t).2.length =
      (if truthy fd.dob ∧ ¬ (validateAge ((fd.dob).getD "") t).valid then 1 else 0) := by
  unfold ageConsistency truthy
  cases hdob : fd.dob with
  | none => simp
  | some s =>
    by_cases hs : s = ""
    · subst hs
      simp
    · by_cases hv : (validateAge s t).valid
      · simp [hs, hv]
      · simp [hs, hv]

/-- When the comparison loop completes on a string base name, it records
one inconsistency per compared name whose similarity to the base is
below 0.7. -/
theorem compareNamesLoop_ok_length (b : String) (l : List (Option String))
    (incons : List Inconsistency)
    (h : compareNamesLoop (some b) l = .ok incons) :
    incons.length = (l.filter (nameMismatch b)).length := by
  induction l generalizing incons with
  | nil =>
    rw [show compareNamesLoop (some b) [] = .ok [] from rfl, Except.ok.injEq] at h
    subst h
    rfl
  | cons n rest ih =>
    cases n with
    | none => exact Except.noConfusion h
    | some s =>
      rw [show compareNamesLoop (some b) (some s :: rest) =
          (match compareNamesLoop (some b) rest with
           | .ok tailIncons =>
             .ok ((if calculate_similarity b s < 7/10 then
                 [Inconsistency.mk "name"
                   ("Name mismatch across documents: " ++ b ++ " vs " ++ s)]
               else []) ++ tailIncons)
           | .error e => .error e) from rfl] at h
      cases hrec : compareNamesLoop (some b) rest with
      | error e =>
        rw [hrec] at h
        exact Except.noConfusion h
      | ok tl =>
        rw [hrec, Except.ok.injEq] at h
        subst h
        rw [List.length_append, List.filter_cons, ih tl hrec]
        by_cases hs : calculate_similarity b s < 7/10
        · simp [nameMismatch, hs, Nat.add_comm]
        · simp [nameMismatch, hs]

/-- When the name step completes, it records exactly `nameMismatchCount`
inconsistencies. -/
theorem nameInconsistencies_ok_length (ocr : List (String × DocData))
    (incons : List Inconsistency)
    (h : nameInconsistencies ocr = .ok incons) :
    incons.length = nameMismatchCount ocr := by
  unfold nameInconsistencies at h
  by_cases hocr : ocr.isEmpty
  · rw [if_pos hocr, Except.ok.injEq] at h
    subst h
    have hdn : docNames ocr = [] := by
      rw [List.isEmpty_iff] at hocr
      subst hocr
      rfl
    unfold nameMismatchCount
    rw [hdn]
    rfl
  · rw [if_neg hocr] at h
    unfold nameMismatchCount
    cases hdn : docNames ocr with
    | nil =>
      rw [hdn] at h
      rw [Except.ok.injEq] at h
      subst h
      rfl
    | cons base rest =>
      cases rest with
      | nil =>
        rw [hdn] at h
        rw [Except.ok.injEq] at h
        subst h
        cases base <;> rfl
      | cons n rest2 =>
        rw [hdn] at h
        cases base with
        | none => exact Except.noConfusion h
        | some b =>
          exact compareNamesLoop_ok_length b (n :: rest2) incons h

/-- The address step records one inconsistency exactly when a present
address is shorter than 20 characters. -/
theorem addressInconsistencies_len (fd : FormData) :
    (addressInconsistencies fd).length =
      (if truthy fd.address ∧ ((fd.address).getD "").length < 20 then 1 else 0) := by
  unfold addressInconsistencies truthy
  cases ha : fd.address with
  | none => simp
  | some a =>
    by_cases h0 : a = ""
    · subst h0
      simp
    · by_cases hl : a.length < 20
      · simp [h0, hl]
      · simp [h0, hl]

/-- A raising name comparison propagates out of `_check_consistency`. -/
theorem checkConsistency_eq_error (fd : FormData) (ocr : List (String × DocData))
    (t : Int) (e : PyErr) (hname : nameInconsistencies ocr = .error e) :
    checkConsistency fd ocr t = .error e := by
  unfold checkConsistency
  rw [hname]

/-- The shape of a completing `_check_consistency` run, in terms of its
three sub-steps. -/
theorem checkConsistency_eq_ok (fd : FormData) (ocr : List (String × DocData))
    (t : Int) (nameIncons : List Inconsistency)
    (hname : nameInconsistencies ocr = .ok nameIncons) :
    checkConsistency fd ocr t = .ok (ConsistencyResult.mk
      (if 0 < (ageConsistency fd t).1.length +
            ((ageConsistency fd t).2 ++ nameIncons ++
              addressInconsistencies fd).length then
        pyTrunc ((((ageConsistency fd t).1.length : ℚ) /
          (((ageConsistency fd t).1.length +
            ((ageConsistency fd t).2 ++ nameIncons ++
              addressInconsistencies fd).length : Nat) : ℚ)) * 100)
      else 100)
      (ageConsistency fd t).1
      ((ageConsistency fd t).2 ++ nameIncons ++ addressInconsistencies fd)) := by
  unfold checkConsistency
  rw [hname]

/-- C7 as amended.  On every run in which the consistency check
completes (it raises instead when two or more names are collected and
one is a stored `None`), the consistency sub-score equals
consistent / (consistent + inconsistencies) × 100 truncated to an
integer (100 when both counts are zero), where only a passing age check
ever counts as a consistent check, and the inconsistencies are: a
present but failing age check, each second-or-later document name whose
similarity to the first document's name is below 0.7, and a present
address shorter than 20 characters — passing name and address checks
contribute nothing to either count. -/
theorem c7_consistency_score_formula (fd : FormData)
    (ocr : List (String × DocData)) (nowDays : Int) (r : ConsistencyResult)
    (hok : checkConsistency fd ocr nowDays = .ok r) :
    r.score =
      (if 0 < consistentCount fd nowDays + inconsistencyCount fd ocr nowDays then
        pyTrunc (((consistentCount fd nowDays : ℚ) /
          ((consistentCount fd nowDays + inconsistencyCount fd ocr nowDays : Nat) : ℚ)) * 100)
      else 100) := by
  cases hname : nameInconsistencies ocr with
  | error e =>
    rw [checkConsistency_eq_error fd ocr nowDays e hname] at hok
    exact Except.noConfusion hok
  | ok nameIncons =>
    rw [checkConsistency_eq_ok fd ocr nowDays nameIncons hname,
      Except.ok.injEq] at hok
    subst hok
    rw [List.length_append, List.length_append, ageConsistency_fst_len,
      ageConsistency_snd_len, nameInconsistencies_ok_length ocr nameIncons hname,
      addressInconsistencies_len]
    rfl

/-- Witness for C7's amended theorem: the completing run on `c7Fd` with
no documents. -/
theorem c7_consistency_score_formula_witness :
    c7Res.score =
      (if 0 < consistentCount c7Fd 0 + inconsistencyCount c7Fd [] 0 then
        pyTrunc (((consistentCount c7Fd 0 : ℚ) /
          ((consistentCount c7Fd 0 + inconsistencyCount c7Fd [] 0 : Nat) : ℚ)) * 100)
      else 100) :=
  c7_consistency_score_formula c7Fd [] 0 c7Res rfl

/-- On a non-negative rational, Python truncation agrees with the floor. -/
theorem pyTrunc_eq_floor {q : ℚ} (h : 0 ≤ q) : pyTrunc q = ⌊q⌋ := by
  unfold pyTrunc
  rw [Rat.floor_def]
  exact Int.tdiv_eq_ediv (Rat.num_nonneg.mpr h) (Int.ofNat_nonneg _)

/-- Bounds of the pattern `int(s / t * 100)` shared by every
sub-validator score: for `0 ≤ s ≤ t` and `t > 0` the result lies in
`[0, 100]`. -/
theorem ratio_bounds (s t : ℚ) (h0 : 0 ≤ s) (h1 : s ≤ t) (ht : 0 < t) :
    0 ≤ pyTrunc (s / t * 100) ∧ pyTrunc (s / t * 100) ≤ 100 := by
  have hq0 : 0 ≤ s / t * 100 := by positivity
  have hdiv : s / t ≤ 1 := div_le_one_of_le₀ h1 ht.le
  have hq1 : s / t * 100 ≤ 100 := by nlinarith
  rw [pyTrunc_eq_floor hq0]
  refine ⟨Int.floor_nonneg.mpr hq0, ?_⟩
  calc ⌊s / t * 100⌋ ≤ ⌊(100 : ℚ)⌋ := Int.floor_le_floor hq1
  _ = 100 := by norm_num

/-- The field-match score lies in `[0, 100]`. -/
theorem compareExtractedFields_score_bounds (fd : FormData)
    (ocr : List (String × DocData)) :
    0 ≤ (compareExtractedFields fd ocr).score ∧
      (compareExtractedFields fd ocr).score ≤ 100 := by
  unfold compareExtractedFields
  by_cases h : ocr.isEmpty
  · rw [if_pos h]
    exact ⟨le_refl 0, by norm_num⟩
  · rw [if_neg h]
    dsimp only
    have hm : ((comparisonFields.map
        (fun p => (p.1, compareOneField fd ocr p.1 p.2))).filterMap
          (fun x => match x.2 with | .matched e => some e | _ => none)).length ≤ 3 := by
      calc _ ≤ (comparisonFields.map
          (fun p => (p.1, compareOneField fd ocr p.1 p.2))).length :=
        List.length_filterMap_le _ _
      _ = 3 := by rw [List.length_map]; rfl
    have := ratio_bounds (((comparisonFields.map
        (fun p => (p.1, compareOneField fd ocr p.1 p.2))).filterMap
          (fun x => match x.2 with | .matched e => some e | _ => none)).length : ℚ) 3
      (by positivity) (by exact_mod_cast hm) (by norm_num)
    constructor
    · exact this.1
    · exact this.2

/-- With document confidences in `[0, 1]`, the quality score lies in
`[0, 100]`. -/
theorem checkDocumentQuality_score_bounds (ocr : List (String × DocData))
    (hconf : ∀ p ∈ ocr, ∀ c : ℚ, p.2.confidence_score = some c → 0 ≤ c ∧ c ≤ 1) :
    0 ≤ (checkDocumentQuality ocr).score ∧ (checkDocumentQuality ocr).score ≤ 100 := by
  unfold checkDocumentQuality
  by_cases h : ocr.isEmpty
  · rw [if_pos h]
    exact ⟨le_refl 0, by norm_num⟩
  · rw [if_neg h]
    dsimp only
    by_cases hl : 0 < (ocr.filterMap (fun p => p.2.confidence_score)).length
    · rw [if_pos hl]
      have hmem : ∀ c ∈ ocr.filterMap (fun p => p.2.confidence_score), 0 ≤ c ∧ c ≤ 1 := by
        intro c hc
        obtain ⟨p, hp, hpc⟩ := List.mem_filterMap.mp hc
        exact hconf p hp c hpc
      have hs0 : 0 ≤ (ocr.filterMap (fun p => p.2.confidence_score)).sum :=
        List.sum_nonneg (fun x hx => (hmem x hx).1)
      have hs1 : (ocr.filterMap (fun p => p.2.confidence_score)).sum ≤
          ((ocr.filterMap (fun p => p.2.confidence_score)).length : ℚ) := by
        calc _ ≤ (ocr.filterMap (fun p => p.2.confidence_score)).length • (1 : ℚ) :=
          List.sum_le_card_nsmul _ _ (fun x hx => (hmem x hx).2)
        _ = _ := by rw [nsmul_eq_mul, mul_one]
      exact ratio_bounds _ _ hs0 hs1 (by exact_mod_cast hl)
    · rw [if_neg hl]
      exact ⟨by norm_num, le_refl 100⟩

/-- Two filters with mutually exclusive predicates keep at most the whole
list between them. -/
theorem length_filter_disjoint_le {α : Type} (l : List α) (p q : α → Bool)
    (h : ∀ x, p x = true → q x = false) :
    (l.filter p).length + (l.filter q).length ≤ l.length := by
  induction l with
  | nil => simp
  | cons a t ih =>
    rw [List.filter_cons, List.filter_cons]
    by_cases hp : p a
    · rw [if_pos hp, if_neg (by rw [h a hp]; exact Bool.false_ne_true)]
      simp only [List.length_cons]
      omega
    · rw [if_neg hp]
      by_cases hq : q a
      · rw [if_pos hq]
        simp only [List.length_cons]
        omega
      · rw [if_neg hq]
        simp only [List.length_cons]
        omega

/-- Bounds of the completeness score formula for any finding count in
`[0, 5]`. -/
theorem completeness_score_bounds_aux (cnt : Int) (h0 : 0 ≤ cnt) (h5 : cnt ≤ 5) :
    0 ≤ pyTrunc ((((5 : Int) - cnt : Int) : ℚ) / 5 * 100) ∧
      pyTrunc ((((5 : Int) - cnt : Int) : ℚ) / 5 * 100) ≤ 100 := by
  apply ratio_bounds
  · have : (0 : Int) ≤ 5 - cnt := by omega
    exact_mod_cast this
  · have : (5 : Int) - cnt ≤ 5 := by omega
    exact_mod_cast this
  · norm_num

/-- The completeness score lies in `[0, 100]`: the five requirements can
produce at most five missing/empty findings because a form field is
counted as missing or as empty, never both. -/
theorem validateCompleteness_score_bounds (fd : FormData)
    (ocr : List (String × DocData)) :
    0 ≤ (validateCompleteness fd ocr).score ∧
      (validateCompleteness fd ocr).score ≤ 100 := by
  have h1 : (requiredFormFields.filter (fun f => (formGet fd f).isNone)).length +
      (requiredFormFields.filter (fun f =>
        match formGet fd f with
        | some v => v = "" || isBlank v
        | none => false)).length ≤ 3 := by
    exact length_filter_disjoint_le requiredFormFields
      (fun f => (formGet fd f).isNone)
      (fun f => match formGet fd f with
        | some v => v = "" || isBlank v
        | none => false)
      (fun f hf => by
        rw [Option.isNone_iff_eq_none] at hf
        simp only [hf])
  have h2 : (((requiredDocs.filter (fun d => (ocr.lookup d).isNone)).map
      (· ++ "_document"))).length ≤ 2 := by
    rw [List.length_map]
    exact List.length_filter_le _ _
  unfold validateCompleteness
  dsimp only
  rw [List.length_append]
  refine completeness_score_bounds_aux _ (by positivity) ?_
  push_cast
  omega

/-- Generic bounds for the `consistent/(consistent+bad)` score pattern of
the consistency and format validators. -/
theorem count_score_bounds (a b : Nat) :
    0 ≤ (if 0 < a + b then pyTrunc (((a : ℚ) / ((a + b : Nat) : ℚ)) * 100) else 100) ∧
      (if 0 < a + b then pyTrunc (((a : ℚ) / ((a + b : Nat) : ℚ)) * 100) else 100) ≤ 100 := by
  by_cases h : 0 < a + b
  · simp only [if_pos h]
    apply ratio_bounds
    · positivity
    · exact_mod_cast Nat.le_add_right a b
    · exact_mod_cast h
  · simp only [if_neg h]
    exact ⟨by norm_num, le_refl 100⟩

/-- The consistency score of a completing run lies in `[0, 100]`. -/
theorem checkConsistency_score_bounds (fd : FormData)
    (ocr : List (String × DocData)) (t : Int) (r : ConsistencyResult)
    (hok : checkConsistency fd ocr t = .ok r) :
    0 ≤ r.score ∧ r.score ≤ 100 := by
  cases hname : nameInconsistencies ocr with
  | error e =>
    rw [checkConsistency_eq_error fd ocr t e hname] at hok
    exact Except.noConfusion hok
  | ok nameIncons =>
    rw [checkConsistency_eq_ok fd ocr t nameIncons hname, Except.ok.injEq] at hok
    subst hok
    exact count_score_bounds (ageConsistency fd t).1.length
      ((ageConsistency fd t).2 ++ nameIncons ++ addressInconsistencies fd).length

/-- The format-validation score lies in `[0, 100]`. -/
theorem validateFormats_score_bounds (fd : FormData)
    (ocr : List (String × DocData)) :
    0 ≤ (validateFormats fd ocr).score ∧ (validateFormats fd ocr).score ≤ 100 := by
  unfold validateFormats
  dsimp only
  exact count_score_bounds _ _

/-- Every severity weight is non-negative. -/
theorem severityWeight_nonneg (s : String) : 0 ≤ severityWeight s := by
  unfold severityWeight
  split_ifs <;> norm_num

/-- The anomaly-count score lies in `[0, 100]`. -/
theorem scoreAnomalies_bounds (l : List Anomaly) :
    0 ≤ scoreAnomalies l ∧ scoreAnomalies l ≤ 100 := by
  unfold scoreAnomalies
  by_cases h : l.isEmpty
  · rw [if_pos h]
    exact ⟨by norm_num, le_refl 100⟩
  · rw [if_neg h]
    refine ⟨le_max_left 0 _, ?_⟩
    apply max_le (by norm_num)
    have hs : 0 ≤ (l.map (fun a => severityWeight a.severity)).sum := by
      apply List.sum_nonneg
      intro x hx
      obtain ⟨a, _, rfl⟩ := List.mem_map.mp hx
      exact severityWeight_nonneg a.severity
    omega

/-- `_score_anomalies` equals the specified
`max(0, 100 − Σ severity_weight)` formula on every anomaly list. -/
theorem scoreAnomalies_eq_max (l : List Anomaly) :
    scoreAnomalies l = max 0 (100 - (l.map (fun a => severityWeight a.severity)).sum) := by
  cases l with
  | nil => simp [scoreAnomalies]
  | cons a t => rfl

/-- `_calculate_risk_score` over the default weight table, written as the
explicit six-term weighted sum. -/
theorem calculateRiskScore_default_eq (b : Breakdown) :
    calculateRiskScore defaultWeights b =
      pyTrunc (((100 - b.data_match : Int) : ℚ) * (25/100) +
        ((100 - b.document_quality : Int) : ℚ) * (15/100) +
        ((100 - b.completeness : Int) : ℚ) * (20/100) +
        ((100 - b.consistency : Int) : ℚ) * (20/100) +
        ((100 - b.format_validation : Int) : ℚ) * (10/100) +
        ((100 - b.anomaly_count : Int) : ℚ) * (10/100)) := by
  have h1 : breakdownGet b "data_match" = b.data_match := rfl
  have h2 : breakdownGet b "document_quality" = b.document_quality := rfl
  have h3 : breakdownGet b "completeness" = b.completeness := rfl
  have h4 : breakdownGet b "consistency" = b.consistency := rfl
  have h5 : breakdownGet b "format_validation" = b.format_validation := rfl
  have h6 : breakdownGet b "anomaly_count" = b.anomaly_count := rfl
  unfold calculateRiskScore defaultWeights
  simp only [List.foldl_cons, List.foldl_nil]
  rw [h1, h2, h3, h4, h5, h6]
  exact congrArg pyTrunc (by ring)

/-- With all six sub-scores in `[0, 100]`, the default-weight risk score
lies in `[0, 100]`. -/
theorem calculateRiskScore_default_bounds (b : Breakdown)
    (h1 : 0 ≤ b.data_match ∧ b.data_match ≤ 100)
    (h2 : 0 ≤ b.document_quality ∧ b.document_quality ≤ 100)
    (h3 : 0 ≤ b.completeness ∧ b.completeness ≤ 100)
    (h4 : 0 ≤ b.consistency ∧ b.consistency ≤ 100)
    (h5 : 0 ≤ b.format_validation ∧ b.format_validation ≤ 100)
    (h6 : 0 ≤ b.anomaly_count ∧ b.anomaly_count ≤ 100) :
    0 ≤ calculateRiskScore defaultWeights b ∧
      calculateRiskScore defaultWeights b ≤ 100 := by
  rw [calculateRiskScore_default_eq]
  have q1 : (0 : ℚ) ≤ (b.data_match : ℚ) ∧ (b.data_match : ℚ) ≤ 100 :=
    ⟨by exact_mod_cast h1.1, by exact_mod_cast h1.2⟩
  have q2 : (0 : ℚ) ≤ (b.document_quality : ℚ) ∧ (b.document_quality : ℚ) ≤ 100 :=
    ⟨by exact_mod_cast h2.1, by exact_mod_cast h2.2⟩
  have q3 : (0 : ℚ) ≤ (b.completeness : ℚ) ∧ (b.completeness : ℚ) ≤ 100 :=
    ⟨by exact_mod_cast h3.1, by exact_mod_cast h3.2⟩
  have q4 : (0 : ℚ) ≤ (b.consistency : ℚ) ∧ (b.consistency : ℚ) ≤ 100 :=
    ⟨by exact_mod_cast h4.1, by exact_mod_cast h4.2⟩
  have q5 : (0 : ℚ) ≤ (b.format_validation : ℚ) ∧ (b.format_validation : ℚ) ≤ 100 :=
    ⟨by exact_mod_cast h5.1, by exact_mod_cast h5.2⟩
  have q6 : (0 : ℚ) ≤ (b.anomaly_count : ℚ) ∧ (b.anomaly_count : ℚ) ≤ 100 :=
    ⟨by exact_mod_cast h6.1, by exact_mod_cast h6.2⟩
  have e0 : (0 : ℚ) ≤ ((100 - b.data_match : Int) : ℚ) * (25/100) +
      ((100 - b.document_quality : Int) : ℚ) * (15/100) +
      ((100 - b.completeness : Int) : ℚ) * (20/100) +
      ((100 - b.consistency : Int) : ℚ) * (20/100) +
      ((100 - b.format_validation : Int) : ℚ) * (10/100) +
      ((100 - b.anomaly_count : Int) : ℚ) * (10/100) := by
    push_cast
    linarith [q1.1, q1.2, q2.1, q2.2, q3.1, q3.2, q4.1, q4.2, q5.1, q5.2, q6.1, q6.2]
  have e1 : ((100 - b.data_match : Int) : ℚ) * (25/100) +
      ((100 - b.document_quality : Int) : ℚ) * (15/100) +
      ((100 - b.completeness : Int) : ℚ) * (20/100) +
      ((100 - b.consistency : Int) : ℚ) * (20/100) +
      ((100 - b.format_validation : Int) : ℚ) * (10/100) +
      ((100 - b.anomaly_count : Int) : ℚ) * (10/100) ≤ 100 := by
    push_cast
    linarith [q1.1, q1.2, q2.1, q2.2, q3.1, q3.2, q4.1, q4.2, q5.1, q5.2, q6.1, q6.2]
  rw [pyTrunc_eq_floor e0]
  refine ⟨Int.floor_nonneg.mpr e0, ?_⟩
  calc ⌊_⌋ ≤ ⌊(100 : ℚ)⌋ := Int.floor_le_floor e1
  _ = 100 := by norm_num

/-- C6.  For every scoring run that completes with a report,
`risk_score` is the truncation of the weighted sum of
`(100 − sub_score) × weight` over the six sub-scores with the weights
{data_match 0.25, document_quality 0.15, completeness 0.20,
consistency 0.20, format_validation 0.10, anomaly_count 0.10}; the
anomaly-count sub-score equals `max(0, 100 − Σ severity_weight)` with
severity weights low = 5, medium = 15, high = 30; and — provided every
stored OCR confidence lies in `[0, 1]`, the extraction collaborator's
contract — the resulting integer risk score lies in `[0, 100]`. -/
theorem c6_risk_aggregation (fd : FormData) (ocr : List (String × DocData))
    (nowDays : Int) (r : ValidationReport)
    (hok : validate_and_score fd ocr nowDays = .ok r)
    (hconf : ∀ p ∈ ocr, ∀ c : ℚ, p.2.confidence_score = some c → 0 ≤ c ∧ c ≤ 1) :
    (r.risk_score =
      pyTrunc (
        ((100 - r.scores_breakdown.data_match : Int) : ℚ) * (25/100) +
        ((100 - r.scores_breakdown.document_quality : Int) : ℚ) * (15/100) +
        ((100 - r.scores_breakdown.completeness : Int) : ℚ) * (20/100) +
        ((100 - r.scores_breakdown.consistency : Int) : ℚ) * (20/100) +
        ((100 - r.scores_breakdown.format_validation : Int) : ℚ) * (10/100) +
        ((100 - r.scores_breakdown.anomaly_count : Int) : ℚ) * (10/100))) ∧
    (r.scores_breakdown.anomaly_count =
      max 0 (100 - (r.anomalies.map (fun a => severityWeight a.severity)).sum)) ∧
    0 ≤ r.risk_score ∧ r.risk_score ≤ 100 := by
  obtain ⟨cr, hcr, rfl⟩ := validate_and_score_ok_elim hok
  have hb := calculateRiskScore_default_bounds
    (Breakdown.mk (compareExtractedFields fd ocr).score (checkDocumentQuality ocr).score
      (validateCompleteness fd ocr).score cr.score
      (validateFormats fd ocr).score
      (scoreAnomalies (detectAnomalies fd ocr (validateCompleteness fd ocr)
        (compareExtractedFields fd ocr) (validateFormats fd ocr)
        (checkDocumentQuality ocr) nowDays)))
    (compareExtractedFields_score_bounds fd ocr)
    (checkDocumentQuality_score_bounds ocr hconf)
    (validateCompleteness_score_bounds fd ocr)
    (checkConsistency_score_bounds fd ocr nowDays cr hcr)
    (validateFormats_score_bounds fd ocr)
    (scoreAnomalies_bounds _)
  exact ⟨calculateRiskScore_default_eq _, scoreAnomalies_eq_max _, hb.1, hb.2⟩

/-- Witness for C6 at concrete inputs (no documents, so the run completes
and the confidence hypothesis holds vacuously). -/
theorem c6_risk_aggregation_witness :
    0 ≤ sampleReport.risk_score ∧ sampleReport.risk_score ≤ 100 :=
  (c6_risk_aggregation wFd [] wDay sampleReport rfl
    (fun p hp => absurd hp (List.not_mem_nil p))).2.2
